import Mathlib

/-!
A shallow embedding of the core of the adventlang interpreter
(pkg/adventlang/eval.go and pkg/adventlang/runtime.go), together with
theorems settling the specification claims about it.

Modelling conventions:

* Go float64 numbers are modelled as rationals.  All operations the claims
  here mention (rounding to nearest, truncation to an integer, integer
  remainder, equality, ordering) are exact on float64 for the ranges the
  interpreter exercises, and are modelled exactly on the rationals.
* Go byte strings are modelled as lists of characters, one character per
  byte.
* Go pointers are modelled by an explicit store: stack frames, value slots
  (the targets of ReferenceValue), list backing maps and dict backing maps
  live in the store and are addressed by natural numbers.
* Go errors are the Signal type.  ReturnError, BreakError and ContinueError
  are the corresponding signal constructors; every other error produced via
  traceError or fmt.Errorf is Signal.err carrying the message (the trace and
  position decoration added by traceError is not modelled, only the message
  text).  A Go runtime panic (integer division by zero, explicit panic
  calls) is Signal.panicked.  Signal.outOfFuel is an artifact of the
  fuel-indexed evaluation function and corresponds to no behaviour of the
  Go program: a run that returns outOfFuel merely received too small a
  fuel bound.
* Evaluation is one fuel-indexed function, run, over a Job sum whose
  branches correspond one-to-one to the Eval methods of eval.go; every
  recursive call consumes one unit of fuel, so the recursion is structural.
-/

namespace Adventlang

/-- Frame addresses in the store (Go: *StackFrame). -/
abbrev FrameId := Nat

/-- Value-slot addresses in the store (Go: *Value). -/
abbrev SlotId := Nat

/-- List-backing addresses in the store (Go: the shared map inside ListValue). -/
abbrev ListId := Nat

/-- Dict-backing addresses in the store (Go: the shared map inside DictValue). -/
abbrev DictId := Nat

/-- The model of Go float64: an exact fraction num/den of integers, kept
unnormalised so that every arithmetic operation is a plain integer
computation.  Every operation the claims mention (rounding to nearest,
truncation, integer remainder, equality, ordering) is exact on float64
for the ranges the interpreter exercises and exact here.  All operations
keep den positive; the one exception is division by zero, where Go
produces an infinity and this model a fraction with denominator zero (no
claim touches division). -/
structure GoNum where
  num : ℤ
  den : ℤ
deriving DecidableEq

instance (n : Nat) : OfNat GoNum n := ⟨⟨n, 1⟩⟩

namespace GoNum

/-- The rational a GoNum denotes (used only to state mathematical facts,
never inside the interpreter). -/
def toRat (q : GoNum) : ℚ := (q.num : ℚ) / (q.den : ℚ)

/-- Float addition (exact). -/
def add (a b : GoNum) : GoNum := ⟨a.num * b.den + b.num * a.den, a.den * b.den⟩

/-- Float subtraction (exact). -/
def sub (a b : GoNum) : GoNum := ⟨a.num * b.den - b.num * a.den, a.den * b.den⟩

/-- Float multiplication (exact). -/
def mul (a b : GoNum) : GoNum := ⟨a.num * b.num, a.den * b.den⟩

/-- Float division (exact; dividing by zero gives denominator zero where
Go gives an infinity). -/
def div (a b : GoNum) : GoNum :=
  if b.num < 0 then ⟨-(a.num * b.den), a.den * -b.num⟩
  else ⟨a.num * b.den, a.den * b.num⟩

/-- Float negation. -/
def neg (a : GoNum) : GoNum := ⟨-a.num, a.den⟩

/-- Float equality: the denoted rationals are equal. -/
def beq (a b : GoNum) : Bool := a.num * b.den == b.num * a.den

/-- Float strict order (dens are positive). -/
def blt (a b : GoNum) : Bool := decide (a.num * b.den < b.num * a.den)

/-- Float non-strict order. -/
def ble (a b : GoNum) : Bool := decide (a.num * b.den ≤ b.num * a.den)

/-- The Go conversion int(f): truncation toward zero. -/
def trunc (q : GoNum) : ℤ := Int.tdiv q.num q.den

/-- The floor of the denoted rational, via floored integer division. -/
def floorZ (q : GoNum) : ℤ := Int.fdiv q.num q.den

/-- The ceiling of the denoted rational. -/
def ceilZ (q : GoNum) : ℤ := -Int.fdiv (-q.num) q.den

/-- Go math.Round: round to the nearest integer, half away from zero. -/
def round (q : GoNum) : ℤ :=
  if 0 ≤ q.num then floorZ (add q ⟨1, 2⟩) else ceilZ (sub q ⟨1, 2⟩)

end GoNum

mutual

/-- Go type Statement (parse.go): exactly one of the variants is set. -/
inductive Stmt where
  | ifS (s : IfStatement)
  | forS (s : ForStatement)
  | whileS (s : WhileStatement)
  | returnS (e : Option Expr)
  | breakS
  | continueS
  | exprS (e : Expr)

/-- Go type IfStatement: condition, if-block, else-block. -/
inductive IfStatement where
  | mk (condition : Expr) (ifBlock : List Stmt) (elseBlock : List Stmt)

/-- Go type ForStatement: optional init, condition and post, and a block. -/
inductive ForStatement where
  | mk (init : Option Expr) (condition : Option Expr) (post : Option Expr)
      (blk : List Stmt)

/-- Go type WhileStatement: optional condition and a block. -/
inductive WhileStatement where
  | mk (condition : Option Expr) (blk : List Stmt)

/-- Go type Expr: wraps an Assignment. -/
inductive Expr where
  | mk (assignment : Assignment)

/-- Go type Assignment: optional let keyword, head, optional op and rhs.
The Let field is a nil-able token pointer in Go; only its nil-ness is ever
read, so it is a Bool here. -/
inductive Assignment where
  | mk (letKw : Bool) (logicOr : LogicOr) (op : Option String)
      (next : Option LogicOr)

/-- Go type LogicOr: head, optional operator (always the word or) and rhs. -/
inductive LogicOr where
  | mk (logicAnd : LogicAnd) (op : Option String) (next : Option LogicOr)

/-- Go type LogicAnd. -/
inductive LogicAnd where
  | mk (equality : Equality) (op : Option String) (next : Option LogicAnd)

/-- Go type Equality. -/
inductive Equality where
  | mk (comparison : Comparison) (op : Option String) (next : Option Equality)

/-- Go type Comparison. -/
inductive Comparison where
  | mk (addition : Addition) (op : Option String) (next : Option Comparison)

/-- Go type Addition. -/
inductive Addition where
  | mk (multiplication : Multiplication) (op : Option String)
      (next : Option Addition)

/-- Go type Multiplication. -/
inductive Multiplication where
  | mk (unary : Unary) (op : Option String) (next : Option Multiplication)

/-- Go type Unary: either an operator applied to a Unary, or a Primary. -/
inductive Unary where
  | un (op : String) (unary : Unary)
  | primary (p : Primary)

/-- Go type Primary: exactly one of the variants is set.  The str variant
holds the raw token including its surrounding quote characters, exactly as
the Go parser leaves it (Primary.Eval strips the first and last byte). -/
inductive Primary where
  | funcLiteral (f : FuncLiteral)
  | listLiteral (items : List Expr)
  | dictLiteral (items : List DictKV)
  | call (identName : String) (chain : CallChain)
  | subExpression (e : Expr) (chain : Option CallChain)
  | number (n : GoNum)
  | str (raw : List Char)
  | trueLit
  | falseLit
  | undefinedLit
  | identP (name : String)

/-- Go type FuncLiteral: parameter names and body.  The source position is
kept as an opaque string, as in FunctionValue. -/
inductive FuncLiteral where
  | mk (pos : String) (params : List String) (blk : List Stmt)

/-- Go type DictKV: either a computed key expression or a quoted literal
key, plus the value expression. -/
inductive DictKV where
  | keyExpr (k : Expr) (v : Expr)
  | keyStr (k : String) (v : Expr)

/-- Go type CallChain: one postfix operation and an optional continuation. -/
inductive CallChain where
  | mk (op : ChainOp) (next : Option CallChain)

/-- The three postfix operations of a CallChain node (Index, Property,
Args); the Go struct has three nil-able pointers of which the parser sets
exactly one. -/
inductive ChainOp where
  | index (e : Expr)
  | property (identName : String)
  | args (exprs : List Expr)

end

/-- Go interface Value: the runtime values of eval.go and runtime.go.
FunctionValue carries its captured frame as a frame address; ListValue and
DictValue carry the address of their shared backing map; ReferenceValue
carries the address of the slot it points to. -/
inductive Value where
  | undefined
  | boolV (b : Bool)
  | number (n : GoNum)
  | stringV (bytes : List Char)
  | identifier (name : String)
  | reference (slot : SlotId)
  | function (pos : String) (parameters : List String) (frame : FrameId)
      (statements : List Stmt)
  | nativeFunction (name : String) (execFn : String)
  | listV (lid : ListId)
  | dictV (did : DictId)

/-- Go type StackFrame: trace metadata, the entries map and a parent link. -/
structure Frame where
  filename : String
  trace : String
  entries : List (String × Value)
  parent : Option FrameId

/-- The mutable heap of a run: stack frames, value slots, and the backing
maps of lists and dicts, each under fresh ascending addresses.  A list
backing map (Go map with int keys 0..len-1) is the ordered list of its
slot addresses; a dict backing map is an association list from keys to
slot addresses. -/
structure Store where
  frames : List (FrameId × Frame)
  slots : List (SlotId × Value)
  lists : List (ListId × List SlotId)
  dicts : List (DictId × List (String × SlotId))
  nextFrame : FrameId
  nextSlot : SlotId
  nextList : ListId
  nextDict : DictId

/-- Association-list lookup, modelling a Go map read. -/
def lookupA {β : Type} : List (String × β) → String → Option β
  | [], _ => none
  | (a, b) :: t, k => if k = a then some b else lookupA t k

/-- Association-list write, modelling a Go map write: replace an existing
binding in place, otherwise append a new one. -/
def updateA {β : Type} : List (String × β) → String → β → List (String × β)
  | [], k, v => [(k, v)]
  | (a, b) :: t, k, v =>
    if k = a then (a, v) :: t else (a, b) :: updateA t k v

/-- Lookup for Nat-addressed store components. -/
def lookupN {β : Type} : List (Nat × β) → Nat → Option β
  | [], _ => none
  | (a, b) :: t, k => if k = a then some b else lookupN t k

/-- Write for Nat-addressed store components. -/
def updateN {β : Type} : List (Nat × β) → Nat → β → List (Nat × β)
  | [], k, v => [(k, v)]
  | (a, b) :: t, k, v =>
    if k = a then (a, v) :: t else (a, b) :: updateN t k v

namespace Store

/-- Read a frame from the store. -/
def getFrame (st : Store) (fid : FrameId) : Option Frame :=
  lookupN st.frames fid

/-- Overwrite a frame in the store. -/
def setFrame (st : Store) (fid : FrameId) (fr : Frame) : Store :=
  { st with frames := updateN st.frames fid fr }

/-- Allocate a fresh frame. -/
def allocFrame (st : Store) (fr : Frame) : FrameId × Store :=
  (st.nextFrame,
   { st with frames := updateN st.frames st.nextFrame fr,
             nextFrame := st.nextFrame + 1 })

/-- Read a value slot (the target of a Go *Value). -/
def getSlot (st : Store) (sid : SlotId) : Option Value :=
  lookupN st.slots sid

/-- Overwrite a value slot. -/
def setSlot (st : Store) (sid : SlotId) (v : Value) : Store :=
  { st with slots := updateN st.slots sid v }

/-- Allocate a fresh value slot holding v (Go: taking the address of a
variable holding v). -/
def allocSlot (st : Store) (v : Value) : SlotId × Store :=
  (st.nextSlot,
   { st with slots := updateN st.slots st.nextSlot v,
             nextSlot := st.nextSlot + 1 })

/-- Read a list backing map. -/
def getList (st : Store) (lid : ListId) : Option (List SlotId) :=
  lookupN st.lists lid

/-- Overwrite a list backing map. -/
def setList (st : Store) (lid : ListId) (elems : List SlotId) : Store :=
  { st with lists := updateN st.lists lid elems }

/-- Allocate a fresh list backing map. -/
def allocList (st : Store) (elems : List SlotId) : ListId × Store :=
  (st.nextList,
   { st with lists := updateN st.lists st.nextList elems,
             nextList := st.nextList + 1 })

/-- Read a dict backing map. -/
def getDict (st : Store) (did : DictId) : Option (List (String × SlotId)) :=
  lookupN st.dicts did

/-- Overwrite a dict backing map. -/
def setDict (st : Store) (did : DictId) (entries : List (String × SlotId)) :
    Store :=
  { st with dicts := updateN st.dicts did entries }

/-- Allocate a fresh dict backing map. -/
def allocDict (st : Store) (entries : List (String × SlotId)) :
    DictId × Store :=
  (st.nextDict,
   { st with dicts := updateN st.dicts st.nextDict entries,
             nextDict := st.nextDict + 1 })

end Store

namespace StackFrame

/-- Go StackFrame.GetChild: a fresh frame whose parent is the receiver,
inheriting its filename.  Dangling frame addresses never arise in a run;
for totality a missing parent contributes an empty filename. -/
def GetChild (st : Store) (fid : FrameId) (trace : String) :
    FrameId × Store :=
  let filename :=
    match st.getFrame fid with
    | some fr => fr.filename
    | none => ""
  st.allocFrame
    { filename := filename, trace := trace, entries := [], parent := some fid }

/-- The parent walk of Go StackFrame.Get, fuelled by the number of frames
in the store (frame chains built by the interpreter are acyclic, so this
fuel always suffices). -/
def GetAux (st : Store) : Nat → FrameId → String → Option Value
  | 0, _, _ => none
  | fuel + 1, fid, key =>
    match st.getFrame fid with
    | none => none
    | some fr =>
      match lookupA fr.entries key with
      | some v => some v
      | none =>
        match fr.parent with
        | some p => GetAux st fuel p key
        | none => none

/-- Go StackFrame.Get: look a variable up through every scope, bottom to
top.  A none result is the "variable not declared" error. -/
def Get (st : Store) (fid : FrameId) (key : String) : Option Value :=
  GetAux st (st.frames.length + 1) fid key

/-- The parent walk of Go StackFrame.Set, carrying the starting frame
(Go: currentFrame).  If an existing binding of key is found the nearest
one is overwritten in its own frame; only when the walk exhausts the chain
is a new binding created in the starting frame. -/
def SetAux (st : Store) (current : FrameId) :
    Nat → FrameId → String → Value → Store
  | 0, _, key, v =>
    match st.getFrame current with
    | some fr =>
      st.setFrame current { fr with entries := updateA fr.entries key v }
    | none => st
  | fuel + 1, fid, key, v =>
    match st.getFrame fid with
    | none =>
      match st.getFrame current with
      | some fr =>
        st.setFrame current { fr with entries := updateA fr.entries key v }
      | none => st
    | some fr =>
      if (lookupA fr.entries key).isSome then
        st.setFrame fid { fr with entries := updateA fr.entries key v }
      else
        match fr.parent with
        | some p => SetAux st current fuel p key v
        | none =>
          match st.getFrame current with
          | some cf =>
            st.setFrame current
              { cf with entries := updateA cf.entries key v }
          | none => st

/-- Go StackFrame.Set: walk every scope bottom to top until an existing
binding of key is found and overwrite it there; if none exists, declare a
new binding in the current (starting) frame. -/
def Set (st : Store) (fid : FrameId) (key : String) (v : Value) : Store :=
  SetAux st fid (st.frames.length + 1) fid key v

end StackFrame

/-- Go unref: if the value is a ReferenceValue, yield the pointed value,
else the value itself.  Dangling slots never arise in a run; for totality
they dereference to undefined. -/
def unref (st : Store) (v : Value) : Value :=
  match v with
  | .reference slot =>
    match st.getSlot slot with
    | some w => w
    | none => .undefined
  | _ => v

/-- Go unwrap: turn an IdentifierValue into its resolution in the frame
(error when undeclared), and unref anything else. -/
def unwrap (st : Store) (fid : FrameId) (v : Value) :
    Except String Value :=
  match v with
  | .identifier name =>
    match StackFrame.Get st fid name with
    | some w => .ok w
    | none => .error ("variable not declared: " ++ name)
  | _ => .ok (unref st v)

/-- Go nToS / nvToS, the string form of a number.  Go prints the shortest
round-tripping decimal form of the float64; this model prints the integer
part exactly when the number is integral and an exact fraction form
otherwise.  No claim depends on the exact spelling; the form only feeds
dict keys for number indexes and diagnostic messages. -/
def nToS (q : GoNum) : String :=
  if Int.tmod q.num q.den = 0 then toString (Int.tdiv q.num q.den)
  else toString q.num ++ "/" ++ toString q.den

/-- Go StringValue.Get: bounds-check the byte index, then materialise a
fresh single-byte string in a fresh slot and yield a reference to it.
The error string is the "string index out of bounds" message. -/
def StringValue.Get (st : Store) (bytes : List Char) (index : ℤ) :
    Except String (Value × Store) :=
  if index < 0 ∨ index > (bytes.length : ℤ) - 1 then
    .error ("string index out of bounds: " ++ toString index)
  else
    match bytes.get? index.toNat with
    | some c =>
      let (sid, st1) := st.allocSlot (.stringV [c])
      .ok (.reference sid, st1)
    | none => .error "string index out of bounds"

/-- Go ListValue.Get: bounds-check the index against the backing map size,
then yield a reference to the slot at that index.  The in-bounds lookup
cannot miss (Go panics "unreachable" there); the model keeps that branch
as a distinguishable error that no run reaches. -/
def ListValue.Get (st : Store) (elems : List SlotId) (index : ℤ) :
    Except String Value :=
  if index < 0 ∨ index > (elems.length : ℤ) - 1 then
    .error ("list index out of bounds: " ++ toString index)
  else
    match elems.get? index.toNat with
    | some sid => .ok (.reference sid)
    | none => .error "unreachable"

/-- Go DictValue.Get: the slot address bound to a key, or a missing-key
error. -/
def DictValue.Get (entries : List (String × SlotId)) (key : String) :
    Option SlotId :=
  lookupA entries key

/-- Go DictValue.Set: allocate a fresh slot holding the value, bind the
key to it, and return the slot address (Go returns the new *Value). -/
def DictValue.Set (st : Store) (did : DictId) (key : String) (v : Value) :
    SlotId × Store :=
  let (sid, st1) := st.allocSlot v
  let entries :=
    match st1.getDict did with
    | some es => es
    | none => []
  (sid, st1.setDict did (updateA entries key sid))

/-- Go Value.Equals, dispatched per variant exactly as in eval.go and
runtime.go: undefined compares only to undefined (no unref of the other
side); identifiers error; numbers, strings and bools unref the other side
then compare structurally; user functions, lists, dicts and references
always compare false; native functions compare by name (no unref). -/
def Value.Equals (st : Store) : Value → Value → Except String Bool
  | .undefined, other =>
    match other with
    | .undefined => .ok true
    | _ => .ok false
  | .identifier name, _ =>
    .error ("tried to compare an uninitialized identifier: " ++ name)
  | .number n, other =>
    match unref st other with
    | .number m => .ok (GoNum.beq n m)
    | _ => .ok false
  | .stringV a, other =>
    match unref st other with
    | .stringV b => .ok (a = b)
    | _ => .ok false
  | .boolV a, other =>
    match unref st other with
    | .boolV b => .ok (a = b)
    | _ => .ok false
  | .function _ _ _ _, _ => .ok false
  | .nativeFunction name _, other =>
    match other with
    | .nativeFunction otherName _ => .ok (name = otherName)
    | _ => .ok false
  | .listV _, _ => .ok false
  | .dictV _, _ => .ok false
  | .reference _, _ => .ok false

/-- Go Value.String(), used only inside error messages.  Scalars print as
in Go; the container forms (which in Go recursively print their elements)
are abbreviated here, since no claim depends on message text for
containers. -/
def Value.StringRepr : Value → String
  | .undefined => "undefined"
  | .boolV b => if b then "true" else "false"
  | .number n => nToS n
  | .stringV bytes => String.mk bytes
  | .identifier name => name
  | .reference _ => "reference"
  | .function _ params _ _ =>
    "function (" ++ String.intercalate "," params ++ ") "
  | .nativeFunction name _ => name ++ " function"
  | .listV _ => "list"
  | .dictV _ => "dict"

/-- Non-local exits and errors.  ReturnError, BreakError and ContinueError
are Go error types caught by type assertion; err is every other Go error
(carrying the message text); panicked is a Go runtime panic; outOfFuel is
the fuel artifact of the embedding; unmodelled marks the three natives
whose behaviour needs the outside world (import, read_lines, time) and is
reached by no claim. -/
inductive Signal where
  | err (message : String)
  | returnSig (v : Value)
  | breakSig
  | continueSig
  | panicked (message : String)
  | outOfFuel
  | unmodelled (name : String)

/-- The result of one Eval call: a value, a list of values (only for
evalExprs, whose Go return type is a value slice), or a signal.  The store
is carried in every case, since Go mutations survive error returns. -/
inductive Outcome where
  | val (v : Value) (st : Store)
  | vals (vs : List Value) (st : Store)
  | sig (s : Signal) (st : Store)

/-- Go doType (runtime.go): the type name of a value. -/
def doType (v : Value) : String :=
  match v with
  | .identifier _ => "identifier"
  | .stringV _ => "string"
  | .number _ => "number"
  | .boolV _ => "bool"
  | .function _ _ _ _ => "function"
  | .nativeFunction _ _ => "function"
  | .listV _ => "list"
  | .dictV _ => "dict"
  | .undefined => "undefined"
  | .reference _ => "reference"

/-- Go ListValue.Append: bind a fresh slot holding the value at the next
index of the backing map. -/
def ListValue.Append (st : Store) (lid : ListId) (v : Value) : Store :=
  let (sid, st1) := st.allocSlot v
  let elems :=
    match st1.getList lid with
    | some es => es
    | none => []
  st1.setList lid (elems ++ [sid])

/-- Go ListValue.Prepend: shift every index up and bind a fresh slot at
index zero. -/
def ListValue.Prepend (st : Store) (lid : ListId) (v : Value) : Store :=
  let (sid, st1) := st.allocSlot v
  let elems :=
    match st1.getList lid with
    | some es => es
    | none => []
  st1.setList lid (sid :: elems)

/-- Go ListValue.Popat: bounds-check, remove the slot at the index shifting
the rest down, and return the removed slot's value. -/
def ListValue.Popat (st : Store) (lid : ListId) (index : ℤ) :
    Except String (Value × Store) :=
  let elems :=
    match st.getList lid with
    | some es => es
    | none => []
  if index < 0 ∨ index > (elems.length : ℤ) - 1 then
    .error ("list index out of bounds: " ++ toString index)
  else
    match elems.get? index.toNat with
    | some sid =>
      let item :=
        match st.getSlot sid with
        | some v => v
        | none => .undefined
      .ok (item, st.setList lid (elems.eraseIdx index.toNat))
    | none => .error "unreachable"

/-- Go doLen: length of a string or list; an identifier argument is
unwrapped first and retried (the Go recursion can only go one level deep
because unwrap never yields an identifier). -/
def doLen (st : Store) (fid : FrameId) (args : List Value) :
    Except Signal (Value × Store) :=
  match args with
  | [arg] =>
    match arg with
    | .identifier name =>
      match unwrap st fid (.identifier name) with
      | .error m => .error (.err m)
      | .ok u =>
        match u with
        | .stringV bytes => .ok (.number ⟨bytes.length, 1⟩, st)
        | .listV lid =>
          match st.getList lid with
          | some es => .ok (.number ⟨es.length, 1⟩, st)
          | none => .ok (.number ⟨0, 1⟩, st)
        | other =>
          .error (.err ("len: the single argument should be a variable, string, or list, got: " ++ doType other))
    | .stringV bytes => .ok (.number ⟨bytes.length, 1⟩, st)
    | .listV lid =>
      match st.getList lid with
      | some es => .ok (.number ⟨es.length, 1⟩, st)
      | none => .ok (.number ⟨0, 1⟩, st)
    | other =>
      .error (.err ("len: the single argument should be a variable, string, or list, got: " ++ doType other))
  | _ =>
    .error (.err ("len: incorrect number of arguments, wanted: 1, got: " ++ toString args.length))

/-- Go doAppend. -/
def doAppend (st : Store) (args : List Value) :
    Except Signal (Value × Store) :=
  match args with
  | [a, b] =>
    match a with
    | .listV lid => .ok (.undefined, ListValue.Append st lid b)
    | other =>
      .error (.err ("append: 1st argument should be a list, got: " ++ doType other))
  | _ =>
    .error (.err ("append: incorrect number of arguments, wanted: 2, got: " ++ toString args.length))

/-- Go doPrepend. -/
def doPrepend (st : Store) (args : List Value) :
    Except Signal (Value × Store) :=
  match args with
  | [a, b] =>
    match a with
    | .listV lid => .ok (.undefined, ListValue.Prepend st lid b)
    | other =>
      .error (.err ("prepend: 1st argument should be a list, got: " ++ doType other))
  | _ =>
    .error (.err ("prepend: incorrect number of arguments, wanted: 2, got: " ++ toString args.length))

/-- Go doPop: remove and return the last item. -/
def doPop (st : Store) (args : List Value) :
    Except Signal (Value × Store) :=
  match args with
  | [a] =>
    match a with
    | .listV lid =>
      let elems :=
        match st.getList lid with
        | some es => es
        | none => []
      if elems.length = 0 then .error (.err "pop: called on an empty list")
      else
        match ListValue.Popat st lid ((elems.length : ℤ) - 1) with
        | .ok (v, st1) => .ok (v, st1)
        | .error m => .error (.err m)
    | other =>
      .error (.err ("pop: the single argument should be a list, got: " ++ doType other))
  | _ =>
    .error (.err ("pop: incorrect number of arguments, wanted: 1, got: " ++ toString args.length))

/-- Go doPopat: remove and return the item at a truncated number index. -/
def doPopat (st : Store) (args : List Value) :
    Except Signal (Value × Store) :=
  match args with
  | [a, b] =>
    match a with
    | .listV lid =>
      let elems :=
        match st.getList lid with
        | some es => es
        | none => []
      if elems.length = 0 then .error (.err "popat: called on an empty list")
      else
        match b with
        | .number n =>
          match ListValue.Popat st lid (GoNum.trunc n) with
          | .ok (v, st1) => .ok (v, st1)
          | .error m => .error (.err m)
        | other =>
          .error (.err ("popat: the 2nd argument should be a number, got: " ++ doType other))
    | other =>
      .error (.err ("popat: the 1st argument should be a list, got: " ++ doType other))
  | _ =>
    .error (.err ("popat: incorrect number of arguments, wanted: 2, got: " ++ toString args.length))

/-- Go doPrepop: remove and return the first item. -/
def doPrepop (st : Store) (args : List Value) :
    Except Signal (Value × Store) :=
  match args with
  | [a] =>
    match a with
    | .listV lid =>
      let elems :=
        match st.getList lid with
        | some es => es
        | none => []
      if elems.length = 0 then .error (.err "prepop: called on an empty list")
      else
        match ListValue.Popat st lid 0 with
        | .ok (v, st1) => .ok (v, st1)
        | .error m => .error (.err m)
    | other =>
      .error (.err ("prepop: the single argument should be a list, got: " ++ doType other))
  | _ =>
    .error (.err ("prepop: incorrect number of arguments, wanted: 1, got: " ++ toString args.length))

/-- Go doAssert: error unless the two arguments compare equal under
Value.Equals. -/
def doAssert (st : Store) (args : List Value) :
    Except Signal (Value × Store) :=
  match args with
  | [a, b] =>
    match Value.Equals st a b with
    | .error m => .error (.err m)
    | .ok eq =>
      if eq then .ok (.undefined, st)
      else
        .error (.err ("assert failed: " ++ a.StringRepr ++ " == " ++ b.StringRepr))
  | _ =>
    .error (.err ("assert: incorrect number of arguments, wanted: 2, got: " ++ toString args.length))

/-- Go doLog: prints its arguments; printing is outside the model, the
value result (undefined) and the arity check are kept. -/
def doLog (st : Store) (args : List Value) :
    Except Signal (Value × Store) :=
  if args.length = 0 then
    .error (.err ("log: incorrect number of arguments, wanted: at least 1, got: " ++ toString args.length))
  else .ok (.undefined, st)

/-- Go doStr: the string form of a string, number or bool. -/
def doStr (st : Store) (args : List Value) :
    Except Signal (Value × Store) :=
  match args with
  | [a] =>
    match a with
    | .stringV bytes => .ok (.stringV bytes, st)
    | .number n => .ok (.stringV (nToS n).data, st)
    | .boolV b =>
      .ok (.stringV (if b then "true".data else "false".data), st)
    | other =>
      .error (.err ("str: expects a single argument of type string, number, or bool, got: " ++ doType other))
  | _ =>
    .error (.err ("str: incorrect number of arguments, wanted: 1, got: " ++ toString args.length))

/-- Go doFloor: truncate a number toward zero via the Go conversion
float64(int(f)). -/
def doFloor (st : Store) (args : List Value) :
    Except Signal (Value × Store) :=
  match args with
  | [a] =>
    match a with
    | .number n => .ok (.number ⟨GoNum.trunc n, 1⟩, st)
    | other =>
      .error (.err ("num: expects a single argument of type number, got: " ++ doType other))
  | _ =>
    .error (.err ("floor: incorrect number of arguments, wanted: 1, got: " ++ toString args.length))

/-- Go doNum, parameterised by the float parser (Go strconv.ParseFloat,
which lives outside this repository): parse a string argument, and on a
parse failure DISCARD the error built for it (the Go code drops the
traceError result on the floor) and return the zero value the failed
ParseFloat left behind. -/
def doNum (parse : List Char → Option GoNum) (st : Store) (args : List Value) :
    Except Signal (Value × Store) :=
  match args with
  | [a] =>
    match a with
    | .stringV bytes =>
      match parse bytes with
      | some f => .ok (.number f, st)
      | none => .ok (.number ⟨0, 1⟩, st)
    | other =>
      .error (.err ("num: expects a single argument of type string, got: " ++ doType other))
  | _ =>
    .error (.err ("num: incorrect number of arguments, wanted: 1, got: " ++ toString args.length))

/-- Go doKeys: the list of keys of a dict, as fresh strings in a fresh
list. -/
def doKeys (st : Store) (args : List Value) :
    Except Signal (Value × Store) :=
  match args with
  | [a] =>
    match a with
    | .dictV did =>
      let entries :=
        match st.getDict did with
        | some es => es
        | none => []
      let (lid, st1) := st.allocList []
      let st2 := entries.foldl
        (fun acc e => ListValue.Append acc lid (.stringV e.fst.data)) st1
      .ok (.listV lid, st2)
    | other =>
      .error (.err ("keys: the single argument should be a dictionary, got: " ++ doType other))
  | _ =>
    .error (.err ("keys: incorrect number of arguments, wanted: 1, got: " ++ toString args.length))

/-- Go doValues: the list of values of a dict. -/
def doValues (st : Store) (args : List Value) :
    Except Signal (Value × Store) :=
  match args with
  | [a] =>
    match a with
    | .dictV did =>
      let entries :=
        match st.getDict did with
        | some es => es
        | none => []
      let (lid, st1) := st.allocList []
      let st2 := entries.foldl
        (fun acc e =>
          let v :=
            match acc.getSlot e.snd with
            | some w => w
            | none => .undefined
          ListValue.Append acc lid v) st1
      .ok (.listV lid, st2)
    | other =>
      .error (.err ("values: the single argument should be a dictionary, got: " ++ doType other))
  | _ =>
    .error (.err ("values: incorrect number of arguments, wanted: 1, got: " ++ toString args.length))

/-- Go doDelete: remove a key from a dict. -/
def doDelete (st : Store) (args : List Value) :
    Except Signal (Value × Store) :=
  match args with
  | [a, b] =>
    match a with
    | .dictV did =>
      match b with
      | .stringV bytes =>
        let entries :=
          match st.getDict did with
          | some es => es
          | none => []
        .ok (.undefined,
             st.setDict did (entries.filter (fun e => e.fst ≠ String.mk bytes)))
      | other =>
        .error (.err ("delete: the 2nd argument should be a string, got: " ++ doType other))
    | other =>
      .error (.err ("delete: 1st argument should be a dictionary, got: " ++ doType other))
  | _ =>
    .error (.err ("delete: incorrect number of arguments, wanted: 2, got: " ++ toString args.length))

/-- Go doType as a native call: arity check then the type-name switch. -/
def doTypeNative (st : Store) (args : List Value) :
    Except Signal (Value × Store) :=
  match args with
  | [a] => .ok (.stringV (doType a).data, st)
  | _ =>
    .error (.err ("type: incorrect number of arguments, wanted: 1, got: " ++ toString args.length))

/-- The simple decimal parser standing in for Go strconv.ParseFloat when a
concrete parser is needed (claims about num are proved for an arbitrary
parser).  It accepts an optional leading minus sign followed by one or
more digits. -/
def parseDecimal (bytes : List Char) : Option GoNum :=
  let digits (ds : List Char) : Option GoNum :=
    if ds = [] ∨ ¬ds.all Char.isDigit then none
    else some ⟨(ds.foldl (fun acc c => acc * 10 + (c.toNat - 48)) 0 : ℕ), 1⟩
  match bytes with
  | Char.ofNat 45 :: rest => (digits rest).map GoNum.neg
  | _ => digits bytes

/-- Dispatch of NativeFunctionValue.Exec on the function name, as injected
by InjectRuntime.  import, read_lines and time interact with the outside
world and are left unmodelled. -/
def execNative (name : String) (st : Store) (fid : FrameId)
    (args : List Value) : Except Signal (Value × Store) :=
  if name = "keys" then doKeys st args
  else if name = "values" then doValues st args
  else if name = "delete" then doDelete st args
  else if name = "len" then doLen st fid args
  else if name = "append" then doAppend st args
  else if name = "prepend" then doPrepend st args
  else if name = "pop" then doPop st args
  else if name = "popat" then doPopat st args
  else if name = "prepop" then doPrepop st args
  else if name = "assert" then doAssert st args
  else if name = "log" then doLog st args
  else if name = "type" then doTypeNative st args
  else if name = "str" then doStr st args
  else if name = "num" then doNum parseDecimal st args
  else if name = "floor" then doFloor st args
  else .error (.unmodelled name)

/-- The dict Index/Property access step of evalCallChain: a hit yields a
reference to the bound slot; a miss auto-vivifies an Undefined slot via
DictValue.Set and yields a reference to it. -/
def dictIndexSlot (st : Store) (did : DictId) (key : String) :
    Value × Store :=
  let entries :=
    match st.getDict did with
    | some es => es
    | none => []
  match DictValue.Get entries key with
  | some sid => (.reference sid, st)
  | none =>
    let (sid, st1) := DictValue.Set st did key .undefined
    (.reference sid, st1)

/-- The list Index step of evalCallChain: the float index is converted
with int(), truncating toward zero (the source comment says floored, the
conversion truncates), then ListValue.Get bounds-checks it. -/
def listIndexNum (st : Store) (lid : ListId) (n : GoNum) :
    Except String Value :=
  let elems :=
    match st.getList lid with
    | some es => es
    | none => []
  ListValue.Get st elems (GoNum.trunc n)

/-- The boolean the Comparison operator computes for two numbers: the
disjunction of the four operator cases, exactly as in Comparison.Eval. -/
def compareNumbers (op : String) (a b : GoNum) : Bool :=
  (op == "<" && GoNum.blt a b) || (op == "<=" && GoNum.ble a b) ||
  (op == ">" && GoNum.blt b a) || (op == ">=" && GoNum.ble b a)

/-- The final step of Equality.Eval: wrap the Equals result for ==,
its negation for !=; any other operator is the unreachable panic. -/
def applyEqualityOp (op : String) (result : Bool) (st : Store) : Outcome :=
  if op = "==" then .val (.boolV result) st
  else if op = "!=" then .val (.boolV !result) st
  else .sig (.panicked "unreachable") st

/-- The identifier-resolution step inside Equality.Eval: an
IdentifierValue is looked up through the frame chain (error when
undeclared); anything else passes through. -/
def resolveIdent (st : Store) (fid : FrameId) (v : Value) :
    Except String Value :=
  match v with
  | .identifier name =>
    match StackFrame.Get st fid name with
    | some w => .ok w
    | none => .error ("variable not declared: " ++ name)
  | _ => .ok v

/-- The tail of Equality.Eval after both operand expressions are
evaluated: unref both sides, resolve identifiers, apply the per-variant
Equals, and wrap the result for the operator.  Only the final
applyEqualityOp step depends on whether the operator is == or !=. -/
def equalityTail (opv : String) (fid : FrameId) (left0 right0 : Value)
    (st : Store) : Outcome :=
  match resolveIdent st fid (unref st left0) with
  | .error m => .sig (.err m) st
  | .ok left =>
    match resolveIdent st fid (unref st right0) with
    | .error m => .sig (.err m) st
    | .ok right =>
      match Value.Equals st left right with
      | .error m => .sig (.err m) st
      | .ok result => applyEqualityOp opv result st

/-- The operator dispatch of Multiplication.Eval after both operands are
unwrapped: star and slash are ordinary arithmetic (division is exact here
where Go divides floats; no claim concerns division), and percent rounds
both operands to the nearest integer (math.Round, half away from zero)
and takes the Go truncated integer remainder — which panics at runtime
when the divisor rounds to zero, aborting the interpreter. -/
def multiplicationOp (opv : String) (l r : Value) (st : Store) : Outcome :=
  let errMsg := "*, /, and % can only be used between [string, string], [number, number], not: [" ++ l.StringRepr ++ ", " ++ r.StringRepr ++ "]"
  match l with
  | .number a =>
    match r with
    | .number b =>
      if opv = "*" then .val (.number (GoNum.mul a b)) st
      else if opv = "/" then .val (.number (GoNum.div a b)) st
      else if opv = "%" then
        let ra := GoNum.round a
        let rb := GoNum.round b
        if rb = 0 then
          .sig (.panicked "runtime error: integer divide by zero") st
        else .val (.number ⟨Int.tmod ra rb, 1⟩) st
      else .sig (.panicked "unreachable") st
    | _ => .sig (.err errMsg) st
  | _ => .sig (.err errMsg) st

/-- The tail of FunctionValue.Exec: catch a bubbling ReturnError and
unwrap its payload in the call frame; yield Undefined when the body ran to
completion; propagate every other signal (in particular BreakError and
ContinueError) unchanged. -/
def execCatch (callFid : FrameId) (o : Outcome) : Outcome :=
  match o with
  | .val _ st3 => .val .undefined st3
  | .vals _ st3 => .sig (.panicked "unreachable") st3
  | .sig (.returnSig rv) st3 =>
    match unwrap st3 callFid rv with
    | .error m => .sig (.err m) st3
    | .ok w => .val w st3
  | .sig sg st3 => .sig sg st3

/-- The evaluation jobs: one constructor per Eval method (or inner loop)
of eval.go.  Jobs carry the frame the Go method receives; exec carries no
caller frame because Go FunctionValue.Exec receives none. -/
inductive Job where
  | stmtJ (fid : FrameId) (s : Stmt)
  | blockJ (fid : FrameId) (ss : List Stmt)
  | exprJ (fid : FrameId) (e : Expr)
  | assignmentJ (fid : FrameId) (a : Assignment)
  | logicOrJ (fid : FrameId) (x : LogicOr)
  | logicAndJ (fid : FrameId) (x : LogicAnd)
  | equalityJ (fid : FrameId) (x : Equality)
  | comparisonJ (fid : FrameId) (x : Comparison)
  | additionJ (fid : FrameId) (x : Addition)
  | multiplicationJ (fid : FrameId) (x : Multiplication)
  | unaryJ (fid : FrameId) (x : Unary)
  | primaryJ (fid : FrameId) (x : Primary)
  | listLiteralJ (fid : FrameId) (items : List Expr) (acc : List SlotId)
  | dictLiteralJ (fid : FrameId) (items : List DictKV) (did : DictId)
  | callChainJ (fid : FrameId) (v : Value) (chain : CallChain)
  | evalExprsJ (fid : FrameId) (es : List Expr) (acc : List Value)
  | execJ (pos : String) (params : List String) (cfid : FrameId)
      (body : List Stmt) (args : List Value)
  | execBodyJ (callFid : FrameId) (ss : List Stmt)
  | loopJ (loopFid : FrameId) (cond : Option Expr) (blk : List Stmt)
      (post : Option Expr)
  | loopBlockJ (loopFid : FrameId) (ss : List Stmt)

/-- The evaluator.  Each branch transcribes the corresponding Eval method
of eval.go; every recursive call consumes one unit of fuel, so a run that
does not return Signal.outOfFuel is a faithful run of the Go evaluator.
Error message texts are kept except that quote marks are omitted and the
trace/position decoration of traceError is not modelled.  The only
arithmetic divergence from Go float64 semantics is division, which is
exact here; no claim concerns division. -/
def run : Nat → Job → Store → Outcome
  | 0, _, st => .sig .outOfFuel st
  | fuel + 1, job, st =>
    match job with
    | .stmtJ fid s =>
      match s with
      | .ifS (.mk cond thenB elseB) =>
        let (ifFid, st1) := StackFrame.GetChild st fid "if statement"
        match run fuel (.exprJ ifFid cond) st1 with
        | .val c st2 =>
          match c with
          | .boolV b => run fuel (.blockJ ifFid (if b then thenB else elseB)) st2
          | _ => .sig (.err "conditional should evaluate to true or false") st2
        | .sig sg st2 => .sig sg st2
        | .vals _ st2 => .sig (.panicked "unreachable") st2
      | .forS (.mk init cond post blk) =>
        let (forFid, st1) := StackFrame.GetChild st fid "for loop"
        match init with
        | some i =>
          match run fuel (.exprJ forFid i) st1 with
          | .val _ st2 => run fuel (.loopJ forFid cond blk post) st2
          | .sig sg st2 => .sig sg st2
          | .vals _ st2 => .sig (.panicked "unreachable") st2
        | none => run fuel (.loopJ forFid cond blk post) st1
      | .whileS (.mk cond blk) =>
        let (wFid, st1) := StackFrame.GetChild st fid "while loop"
        run fuel (.loopJ wFid cond blk none) st1
      | .returnS none => .sig (.returnSig .undefined) st
      | .returnS (some e) =>
        match run fuel (.exprJ fid e) st with
        | .val v st1 => .sig (.returnSig v) st1
        | .sig sg st1 => .sig sg st1
        | .vals _ st1 => .sig (.panicked "unreachable") st1
      | .breakS => .sig .breakSig st
      | .continueS => .sig .continueSig st
      | .exprS e => run fuel (.exprJ fid e) st
    | .blockJ fid ss =>
      match ss with
      | [] => .val .undefined st
      | [s] => run fuel (.stmtJ fid s) st
      | s :: rest =>
        match run fuel (.stmtJ fid s) st with
        | .val _ st1 => run fuel (.blockJ fid rest) st1
        | .sig sg st1 => .sig sg st1
        | .vals _ st1 => .sig (.panicked "unreachable") st1
    | .exprJ fid e =>
      match e with
      | .mk a => run fuel (.assignmentJ fid a) st
    | .assignmentJ fid a =>
      match a with
      | .mk letKw lhs op next =>
        match run fuel (.logicOrJ fid lhs) st with
        | .sig sg st1 => .sig sg st1
        | .vals _ st1 => .sig (.panicked "unreachable") st1
        | .val left st1 =>
          match op with
          | none =>
            match left with
            | .reference slot => .val (unref st1 (.reference slot)) st1
            | _ => .val left st1
          | some _ =>
            match next with
            | none => .sig (.panicked "unreachable") st1
            | some rhs =>
              match run fuel (.logicOrJ fid rhs) st1 with
              | .sig sg st2 => .sig sg st2
              | .vals _ st2 => .sig (.panicked "unreachable") st2
              | .val right0 st2 =>
                let rightRes : Except String Value :=
                  match right0 with
                  | .identifier name =>
                    match StackFrame.Get st2 fid name with
                    | some w => .ok w
                    | none => .error ("variable not declared: " ++ name)
                  | _ => .ok right0
                match rightRes with
                | .error m => .sig (.err m) st2
                | .ok right =>
                  match left with
                  | .reference slot => .val right (st2.setSlot slot right)
                  | .identifier name =>
                    if letKw then .val right (StackFrame.Set st2 fid name right)
                    else
                      match StackFrame.Get st2 fid name with
                      | some _ => .val right (StackFrame.Set st2 fid name right)
                      | none =>
                        .sig (.err ("cant assign to unknown variable: " ++ left.StringRepr)) st2
                  | _ =>
                    .sig (.err ("cant assign to non-variable: " ++ left.StringRepr)) st2
    | .logicOrJ fid x =>
      match x with
      | .mk land op next =>
        match run fuel (.logicAndJ fid land) st with
        | .sig sg st1 => .sig sg st1
        | .vals _ st1 => .sig (.panicked "unreachable") st1
        | .val left st1 =>
          match op with
          | none => .val left st1
          | some _ =>
            match next with
            | none => .sig (.panicked "unreachable") st1
            | some rhs =>
              match run fuel (.logicOrJ fid rhs) st1 with
              | .sig sg st2 => .sig sg st2
              | .vals _ st2 => .sig (.panicked "unreachable") st2
              | .val right0 st2 =>
                match unwrap st2 fid left with
                | .error m => .sig (.err m) st2
                | .ok l =>
                  match unwrap st2 fid right0 with
                  | .error m => .sig (.err m) st2
                  | .ok r =>
                    match l, r with
                    | .boolV a, .boolV b => .val (.boolV (a || b)) st2
                    | _, _ =>
                      .sig (.err ("only bools can be compared with or, found: " ++ l.StringRepr ++ " and " ++ r.StringRepr)) st2
    | .logicAndJ fid x =>
      match x with
      | .mk eqx op next =>
        match run fuel (.equalityJ fid eqx) st with
        | .sig sg st1 => .sig sg st1
        | .vals _ st1 => .sig (.panicked "unreachable") st1
        | .val left st1 =>
          match op with
          | none => .val left st1
          | some _ =>
            match next with
            | none => .sig (.panicked "unreachable") st1
            | some rhs =>
              match run fuel (.logicAndJ fid rhs) st1 with
              | .sig sg st2 => .sig sg st2
              | .vals _ st2 => .sig (.panicked "unreachable") st2
              | .val right0 st2 =>
                match unwrap st2 fid left with
                | .error m => .sig (.err m) st2
                | .ok l =>
                  match unwrap st2 fid right0 with
                  | .error m => .sig (.err m) st2
                  | .ok r =>
                    match l, r with
                    | .boolV a, .boolV b => .val (.boolV (a && b)) st2
                    | _, _ =>
                      .sig (.err ("only bools can be compared with and, found: " ++ l.StringRepr ++ " and " ++ r.StringRepr)) st2
    | .equalityJ fid x =>
      match x with
      | .mk comp op next =>
        match run fuel (.comparisonJ fid comp) st with
        | .sig sg st1 => .sig sg st1
        | .vals _ st1 => .sig (.panicked "unreachable") st1
        | .val left0 st1 =>
          match op with
          | none => .val left0 st1
          | some opv =>
            match next with
            | none => .sig (.panicked "unreachable") st1
            | some rhs =>
              match run fuel (.equalityJ fid rhs) st1 with
              | .sig sg st2 => .sig sg st2
              | .vals _ st2 => .sig (.panicked "unreachable") st2
              | .val right0 st2 => equalityTail opv fid left0 right0 st2
    | .comparisonJ fid x =>
      match x with
      | .mk add op next =>
        match run fuel (.additionJ fid add) st with
        | .sig sg st1 => .sig sg st1
        | .vals _ st1 => .sig (.panicked "unreachable") st1
        | .val left0 st1 =>
          match op with
          | none => .val left0 st1
          | some opv =>
            match next with
            | none => .sig (.panicked "unreachable") st1
            | some rhs =>
              match run fuel (.comparisonJ fid rhs) st1 with
              | .sig sg st2 => .sig sg st2
              | .vals _ st2 => .sig (.panicked "unreachable") st2
              | .val right0 st2 =>
                match unwrap st2 fid left0 with
                | .error m => .sig (.err m) st2
                | .ok l =>
                  match unwrap st2 fid right0 with
                  | .error m => .sig (.err m) st2
                  | .ok r =>
                    match l, r with
                    | .number a, .number b =>
                      .val (.boolV (compareNumbers opv a b)) st2
                    | _, _ =>
                      .sig (.err ("only numbers can be compared with " ++ opv ++ " found: " ++ l.StringRepr ++ " and " ++ r.StringRepr)) st2
    | .additionJ fid x =>
      match x with
      | .mk mult op next =>
        match run fuel (.multiplicationJ fid mult) st with
        | .sig sg st1 => .sig sg st1
        | .vals _ st1 => .sig (.panicked "unreachable") st1
        | .val left0 st1 =>
          match op with
          | none => .val left0 st1
          | some opv =>
            match next with
            | none => .sig (.panicked "unreachable") st1
            | some rhs =>
              match run fuel (.additionJ fid rhs) st1 with
              | .sig sg st2 => .sig sg st2
              | .vals _ st2 => .sig (.panicked "unreachable") st2
              | .val right0 st2 =>
                match unwrap st2 fid left0 with
                | .error m => .sig (.err m) st2
                | .ok l =>
                  match unwrap st2 fid right0 with
                  | .error m => .sig (.err m) st2
                  | .ok r =>
                    let errMsg := "+ can only be used between [string, string], [number, number], not: [" ++ l.StringRepr ++ ", " ++ r.StringRepr ++ "]"
                    let strL := match l with | .stringV a => some a | _ => none
                    let strR := match r with | .stringV a => some a | _ => none
                    if opv = "+" ∧ (strL.isSome ≠ strR.isSome) then
                      .sig (.err errMsg) st2
                    else
                      match strL, strR with
                      | some a, some b =>
                        if opv = "+" then .val (.stringV (a ++ b)) st2
                        else
                          let numL := match l with | .number n => some n | _ => none
                          let numR := match r with | .number n => some n | _ => none
                          if numL.isSome ≠ numR.isSome then .sig (.err errMsg) st2
                          else if opv = "-" then
                            .sig (.err ("- and + can only be used between [number, number], not: [" ++ l.StringRepr ++ ", " ++ r.StringRepr ++ "]")) st2
                          else .sig (.err errMsg) st2
                      | _, _ =>
                        let numL := match l with | .number n => some n | _ => none
                        let numR := match r with | .number n => some n | _ => none
                        match numL, numR with
                        | some a, some b =>
                          if opv = "+" then .val (.number (GoNum.add a b)) st2
                          else if opv = "-" then .val (.number (GoNum.sub a b)) st2
                          else .sig (.err errMsg) st2
                        | some _, none => .sig (.err errMsg) st2
                        | none, some _ => .sig (.err errMsg) st2
                        | none, none =>
                          if opv = "-" then
                            .sig (.err ("- and + can only be used between [number, number], not: [" ++ l.StringRepr ++ ", " ++ r.StringRepr ++ "]")) st2
                          else .sig (.err errMsg) st2
    | .multiplicationJ fid x =>
      match x with
      | .mk un op next =>
        match run fuel (.unaryJ fid un) st with
        | .sig sg st1 => .sig sg st1
        | .vals _ st1 => .sig (.panicked "unreachable") st1
        | .val left0 st1 =>
          match op with
          | none => .val left0 st1
          | some opv =>
            match next with
            | none => .sig (.panicked "unreachable") st1
            | some rhs =>
              match run fuel (.multiplicationJ fid rhs) st1 with
              | .sig sg st2 => .sig sg st2
              | .vals _ st2 => .sig (.panicked "unreachable") st2
              | .val right0 st2 =>
                match unwrap st2 fid left0 with
                | .error m => .sig (.err m) st2
                | .ok l =>
                  match unwrap st2 fid right0 with
                  | .error m => .sig (.err m) st2
                  | .ok r => multiplicationOp opv l r st2
    | .unaryJ fid x =>
      match x with
      | .un opv u =>
        if opv = "!" then
          match run fuel (.unaryJ fid u) st with
          | .sig sg st1 => .sig sg st1
          | .vals _ st1 => .sig (.panicked "unreachable") st1
          | .val v0 st1 =>
            match unwrap st1 fid v0 with
            | .error m => .sig (.err m) st1
            | .ok v =>
              match v with
              | .boolV b => .val (.boolV !b) st1
              | _ =>
                .sig (.err ("expected bool after !, found" ++ v.StringRepr)) st1
        else if opv = "-" then
          match run fuel (.unaryJ fid u) st with
          | .sig sg st1 => .sig sg st1
          | .vals _ st1 => .sig (.panicked "unreachable") st1
          | .val v0 st1 =>
            match unwrap st1 fid v0 with
            | .error m => .sig (.err m) st1
            | .ok v =>
              match v with
              | .number n => .val (.number (GoNum.neg n)) st1
              | _ =>
                .sig (.err ("expected bool after -, found" ++ v.StringRepr)) st1
        else .sig (.panicked "unreachable") st
      | .primary p => run fuel (.primaryJ fid p) st
    | .primaryJ fid p =>
      match p with
      | .funcLiteral (.mk pos params blk) =>
        let (cfid, st1) := StackFrame.GetChild st fid "function declared"
        .val (.function pos params cfid blk) st1
      | .listLiteral items => run fuel (.listLiteralJ fid items []) st
      | .dictLiteral items =>
        let (did, st1) := st.allocDict []
        run fuel (.dictLiteralJ fid items did) st1
      | .call name chain =>
        match StackFrame.Get st fid name with
        | some v => run fuel (.callChainJ fid v chain) st
        | none => .sig (.err ("variable not declared: " ++ name)) st
      | .subExpression e chainOpt =>
        match run fuel (.exprJ fid e) st with
        | .sig sg st1 => .sig sg st1
        | .vals _ st1 => .sig (.panicked "unreachable") st1
        | .val v st1 =>
          match chainOpt with
          | some chain => run fuel (.callChainJ fid v chain) st1
          | none => .val v st1
      | .number n => .val (.number n) st
      | .str raw => .val (.stringV (raw.drop 1).dropLast) st
      | .trueLit => .val (.boolV true) st
      | .falseLit => .val (.boolV false) st
      | .undefinedLit => .val .undefined st
      | .identP name => .val (.identifier name) st
    | .listLiteralJ fid items acc =>
      match items with
      | [] =>
        let (lid, st1) := st.allocList acc
        .val (.listV lid) st1
      | e :: rest =>
        match run fuel (.exprJ fid e) st with
        | .sig sg st1 => .sig sg st1
        | .vals _ st1 => .sig (.panicked "unreachable") st1
        | .val v st1 =>
          let (sid, st2) := st1.allocSlot v
          run fuel (.listLiteralJ fid rest (acc ++ [sid])) st2
    | .dictLiteralJ fid items did =>
      match items with
      | [] => .val (.dictV did) st
      | .keyExpr kExpr vExpr :: rest =>
        match run fuel (.exprJ fid kExpr) st with
        | .sig sg st1 => .sig sg st1
        | .vals _ st1 => .sig (.panicked "unreachable") st1
        | .val kv st1 =>
          match unwrap st1 fid kv with
          | .error m => .sig (.err m) st1
          | .ok ku =>
            let key :=
              match ku with
              | .stringV bytes => String.mk bytes
              | _ => ""
            match run fuel (.exprJ fid vExpr) st1 with
            | .sig sg st2 => .sig sg st2
            | .vals _ st2 => .sig (.panicked "unreachable") st2
            | .val vv st2 =>
              if key = "" then
                .sig (.err "cant set empty string as dictionary key") st2
              else
                let (_, st3) := DictValue.Set st2 did key vv
                run fuel (.dictLiteralJ fid rest did) st3
      | .keyStr key vExpr :: rest =>
        match run fuel (.exprJ fid vExpr) st with
        | .sig sg st1 => .sig sg st1
        | .vals _ st1 => .sig (.panicked "unreachable") st1
        | .val vv st1 =>
          if key = "" then
            .sig (.err "cant set empty string as dictionary key") st1
          else
            let (_, st2) := DictValue.Set st1 did key vv
            run fuel (.dictLiteralJ fid rest did) st2
    | .callChainJ fid v0 chain =>
      match chain with
      | .mk cop next =>
        let v := unref st v0
        match cop with
        | .index e =>
          match run fuel (.exprJ fid e) st with
          | .sig sg st1 => .sig sg st1
          | .vals _ st1 => .sig (.panicked "unreachable") st1
          | .val idx0 st1 =>
            match unwrap st1 fid idx0 with
            | .error m => .sig (.err m) st1
            | .ok idx =>
              match v with
              | .dictV did =>
                let idxS :=
                  match idx with
                  | .number n => Value.stringV (nToS n).data
                  | _ => idx
                match idxS with
                | .stringV bytes =>
                  let (w, st2) := dictIndexSlot st1 did (String.mk bytes)
                  match next with
                  | none => .val w st2
                  | some nxt => run fuel (.callChainJ fid w nxt) st2
                | other =>
                  .sig (.err ("dictionaries can only be accessed by string: got " ++ other.StringRepr ++ " of type " ++ doType other)) st1
              | .listV lid =>
                match idx with
                | .number n =>
                  match listIndexNum st1 lid n with
                  | .ok w =>
                    match next with
                    | none => .val w st1
                    | some nxt => run fuel (.callChainJ fid w nxt) st1
                  | .error m => .sig (.err m) st1
                | other =>
                  .sig (.err ("lists can only be accessed by number: got " ++ other.StringRepr ++ " of type " ++ doType other)) st1
              | .stringV bytes =>
                match idx with
                | .number n =>
                  match StringValue.Get st1 bytes (GoNum.trunc n) with
                  | .ok (w, st2) =>
                    match next with
                    | none => .val w st2
                    | some nxt => run fuel (.callChainJ fid w nxt) st2
                  | .error m => .sig (.err m) st1
                | other =>
                  .sig (.err ("strings can only be accessed by number: got " ++ other.StringRepr ++ " of type " ++ doType other)) st1
              | other =>
                match next with
                | none => .val other st1
                | some nxt => run fuel (.callChainJ fid other nxt) st1
        | .property prop =>
          match v with
          | .dictV did =>
            let (w, st1) := dictIndexSlot st did prop
            match next with
            | none => .val w st1
            | some nxt => run fuel (.callChainJ fid w nxt) st1
          | .listV lid =>
            match next with
            | some (.mk (.args exprs) next2) =>
              match run fuel (.evalExprsJ fid exprs []) st with
              | .sig sg st1 => .sig sg st1
              | .val _ st1 => .sig (.panicked "unreachable") st1
              | .vals args st1 =>
                let fullArgs := Value.listV lid :: args
                let dispatch : Except Signal (Value × Store) :=
                  if prop = "append" then doAppend st1 fullArgs
                  else if prop = "pop" then doPop st1 fullArgs
                  else if prop = "prepend" then doPrepend st1 fullArgs
                  else if prop = "prepop" then doPrepop st1 fullArgs
                  else if prop = "popat" then doPopat st1 fullArgs
                  else .error (.err ("unknown list function: " ++ prop))
                match dispatch with
                | .error sg => .sig sg st1
                | .ok (w, st2) =>
                  match next2 with
                  | none => .val w st2
                  | some nxt => run fuel (.callChainJ fid w nxt) st2
            | _ => .sig (.err ("unknown list property: " ++ prop)) st
          | other =>
            match next with
            | none => .val other st
            | some nxt => run fuel (.callChainJ fid other nxt) st
        | .args exprs =>
          match run fuel (.evalExprsJ fid exprs []) st with
          | .sig sg st1 => .sig sg st1
          | .val _ st1 => .sig (.panicked "unreachable") st1
          | .vals args st1 =>
            match v with
            | .function pos params cfid body =>
              match run fuel (.execJ pos params cfid body args) st1 with
              | .sig sg st2 => .sig sg st2
              | .vals _ st2 => .sig (.panicked "unreachable") st2
              | .val w st2 =>
                match next with
                | none => .val w st2
                | some nxt => run fuel (.callChainJ fid w nxt) st2
            | .nativeFunction _ execFn =>
              match execNative execFn st1 fid args with
              | .error sg => .sig sg st1
              | .ok (w, st2) =>
                match next with
                | none => .val w st2
                | some nxt => run fuel (.callChainJ fid w nxt) st2
            | _ => .sig (.err "only functions can be called") st1
    | .evalExprsJ fid es acc =>
      match es with
      | [] => .vals acc st
      | e :: rest =>
        match run fuel (.exprJ fid e) st with
        | .sig sg st1 => .sig sg st1
        | .vals _ st1 => .sig (.panicked "unreachable") st1
        | .val v st1 =>
          match unwrap st1 fid v with
          | .error m => .sig (.err m) st1
          | .ok u => run fuel (.evalExprsJ fid rest (acc ++ [u])) st1
    | .execJ _pos params cfid body args =>
      let (callFid, st1) := StackFrame.GetChild st cfid "function call"
      if args.length ≠ params.length then
        .sig (.err ("incorrect number of arguments, wanted: " ++ toString params.length ++ ", got: " ++ toString args.length)) st1
      else
        let st2 := (params.zip args).foldl
          (fun acc pa => StackFrame.Set acc callFid pa.fst pa.snd) st1
        execCatch callFid (run fuel (.execBodyJ callFid body) st2)
    | .execBodyJ callFid ss =>
      match ss with
      | [] => .val .undefined st
      | s :: rest =>
        match run fuel (.stmtJ callFid s) st with
        | .val _ st1 => run fuel (.execBodyJ callFid rest) st1
        | .sig sg st1 => .sig sg st1
        | .vals _ st1 => .sig (.panicked "unreachable") st1
    | .loopJ loopFid cond blk post =>
      let condOutcome : Outcome :=
        match cond with
        | some c => run fuel (.exprJ loopFid c) st
        | none => .val (.boolV true) st
      match condOutcome with
      | .sig sg st1 => .sig sg st1
      | .vals _ st1 => .sig (.panicked "unreachable") st1
      | .val c st1 =>
        match c with
        | .boolV false => .val .undefined st1
        | .boolV true =>
          match run fuel (.loopBlockJ loopFid blk) st1 with
          | .sig .breakSig st2 => .val .undefined st2
          | .sig sg st2 => .sig sg st2
          | .vals _ st2 => .sig (.panicked "unreachable") st2
          | .val _ st2 =>
            match post with
            | some pexpr =>
              match run fuel (.exprJ loopFid pexpr) st2 with
              | .sig sg st3 => .sig sg st3
              | .vals _ st3 => .sig (.panicked "unreachable") st3
              | .val _ st3 => run fuel (.loopJ loopFid cond blk post) st3
            | none => run fuel (.loopJ loopFid cond blk post) st2
        | other =>
          .sig (.err ("loop condition expression should evaluate to a boolean, found: " ++ doType other)) st1
    | .loopBlockJ loopFid ss =>
      match ss with
      | [] => .val .undefined st
      | s :: rest =>
        match run fuel (.stmtJ loopFid s) st with
        | .val _ st1 => run fuel (.loopBlockJ loopFid rest) st1
        | .sig .continueSig st1 => .val .undefined st1
        | .sig sg st1 => .sig sg st1
        | .vals _ st1 => .sig (.panicked "unreachable") st1

/-- The native bindings InjectRuntime writes into the root frame, in
source order.  A nativeFunction value carries its display name and the Go
Exec function pointer (modelled as a dispatch key); the source binds the
variable values to a NativeFunctionValue whose name field says keys but
whose Exec is doValues, and this quirk is kept. -/
def runtimeEntries : List (String × Value) :=
  [("import", .nativeFunction "import" "import"),
   ("keys", .nativeFunction "keys" "keys"),
   ("values", .nativeFunction "keys" "values"),
   ("delete", .nativeFunction "delete" "delete"),
   ("len", .nativeFunction "len" "len"),
   ("append", .nativeFunction "append" "append"),
   ("prepend", .nativeFunction "prepend" "prepend"),
   ("pop", .nativeFunction "pop" "pop"),
   ("popat", .nativeFunction "popat" "popat"),
   ("prepop", .nativeFunction "prepop" "prepop"),
   ("assert", .nativeFunction "assert" "assert"),
   ("log", .nativeFunction "log" "log"),
   ("time", .nativeFunction "time" "time"),
   ("type", .nativeFunction "type" "type"),
   ("str", .nativeFunction "str" "str"),
   ("num", .nativeFunction "num" "num"),
   ("floor", .nativeFunction "floor" "floor"),
   ("read_lines", .nativeFunction "read_lines" "read_lines")]

/-- The store after Context.Init and InjectRuntime: one root frame (id 0)
holding the native bindings. -/
def initStore (filename : String) : Store :=
  { frames := [(0, { filename := filename, trace := "", entries := runtimeEntries, parent := none })],
    slots := [], lists := [], dicts := [],
    nextFrame := 1, nextSlot := 0, nextList := 0, nextDict := 0 }

/-- Go Program.Eval: run the statements as a block against a frame, then
unwrap the resulting value there. -/
def programEval (fuel : Nat) (fid : FrameId) (stmts : List Stmt)
    (st : Store) : Outcome :=
  match run fuel (.blockJ fid stmts) st with
  | .val v st1 =>
    match unwrap st1 fid v with
    | .ok u => .val u st1
    | .error m => .sig (.err m) st1
  | .sig sg st1 => .sig sg st1
  | .vals _ st1 => .sig (.panicked "unreachable") st1

/-- Go RunProgram for an already-parsed program: initialise the context,
inject the runtime, evaluate. -/
def RunProgram (fuel : Nat) (stmts : List Stmt) : Outcome :=
  programEval fuel 0 stmts (initStore "main")

/-- The value of an ok outcome. -/
def Outcome.value : Outcome → Option Value
  | .val v _ => some v
  | _ => none

/-- The signal of a signalling outcome. -/
def Outcome.signal : Outcome → Option Signal
  | .sig sg _ => some sg
  | _ => none

/-- The store an outcome carries. -/
def Outcome.store : Outcome → Store
  | .val _ st => st
  | .vals _ st => st
  | .sig _ st => st

/-- The entries of a frame in an outcome's store. -/
def Outcome.frameEntries (o : Outcome) (fid : FrameId) :
    Option (List (String × Value)) :=
  match o.store.getFrame fid with
  | some fr => some fr.entries
  | none => none

/-- AST shorthand: a Unary wrapping a Primary. -/
def unaryOf (p : Primary) : Unary := .primary p

/-- AST shorthand: a one-element Multiplication. -/
def multOf (u : Unary) : Multiplication := .mk u none none

/-- AST shorthand: a one-element Addition. -/
def addOf (m : Multiplication) : Addition := .mk m none none

/-- AST shorthand: a one-element Comparison. -/
def compOf (a : Addition) : Comparison := .mk a none none

/-- AST shorthand: a one-element Equality. -/
def eqOf (c : Comparison) : Equality := .mk c none none

/-- AST shorthand: a one-element LogicAnd. -/
def andOf (e : Equality) : LogicAnd := .mk e none none

/-- AST shorthand: a one-element LogicOr. -/
def orOf (a : LogicAnd) : LogicOr := .mk a none none

/-- AST shorthand: the LogicOr holding just one Primary. -/
def orOfP (p : Primary) : LogicOr :=
  orOf (andOf (eqOf (compOf (addOf (multOf (unaryOf p))))))

/-- AST shorthand: the expression holding just one Primary. -/
def exprOfP (p : Primary) : Expr := .mk (.mk false (orOfP p) none none)

/-- AST shorthand: the expression statement for one Primary. -/
def stmtOfP (p : Primary) : Stmt := .exprS (exprOfP p)

/-- AST shorthand: the statement let name = rhs. -/
def letStmt (name : String) (rhs : LogicOr) : Stmt :=
  .exprS (.mk (.mk true (orOfP (.identP name)) (some "=") (some rhs)))

/-- AST shorthand: the statement name = rhs (no let). -/
def assignStmt (name : String) (rhs : LogicOr) : Stmt :=
  .exprS (.mk (.mk false (orOfP (.identP name)) (some "=") (some rhs)))

/-- AST shorthand: a call of a named function with argument expressions. -/
def callOf (name : String) (args : List Expr) : Primary :=
  .call name (.mk (.args args) none)

/-- AST shorthand: indexing a named variable with one index expression. -/
def indexOf (name : String) (idx : Expr) : Primary :=
  .call name (.mk (.index idx) none)

/-- AST shorthand: the expression holding one Unary. -/
def exprOfU (u : Unary) : Expr :=
  .mk (.mk false (orOf (andOf (eqOf (compOf (addOf (multOf u)))))) none none)

/-- AST shorthand: the expression a + b on two Primaries. -/
def addExpr (a b : Primary) : Expr :=
  .mk (.mk false (orOf (andOf (eqOf (compOf (.mk (multOf (unaryOf a)) (some "+")
    (some (addOf (multOf (unaryOf b))))))))) none none)

/-- AST shorthand: the expression a % b on two Primaries. -/
def modExpr (a b : Primary) : Expr :=
  .mk (.mk false (orOf (andOf (eqOf (compOf (addOf (.mk (unaryOf a) (some "%")
    (some (multOf (unaryOf b))))))))) none none)

/-- AST shorthand: the expression a == b (or a != b) on two Primaries. -/
def eqExpr (op : String) (a b : Primary) : Expr :=
  .mk (.mk false (orOf (andOf (.mk (compOf (addOf (multOf (unaryOf a))))
    (some op) (some (eqOf (compOf (addOf (multOf (unaryOf b))))))))) none none)

/-- AST shorthand: a string literal Primary as the parser leaves it, with
its surrounding quote characters (byte 34). -/
def strLit (s : String) : Primary :=
  .str (Char.ofNat 34 :: s.data ++ [Char.ofNat 34])

/-- The elements of a list-valued outcome, read through the backing map
and the element slots. -/
def outcomeListElems (o : Outcome) : Option (List Value) :=
  match o with
  | .val (.listV lid) st =>
    match st.getList lid with
    | some sids =>
      some (sids.map (fun sid =>
        match st.getSlot sid with
        | some v => v
        | none => .undefined))
    | none => none
  | _ => none

/-- Whether a value is a NumberValue. -/
def Value.isNumber : Value → Bool
  | .number _ => true
  | _ => false

/-- Whether a value is an IdentifierValue. -/
def Value.isIdentifier : Value → Bool
  | .identifier _ => true
  | _ => false

/-- A two-frame store for the scoping claims: a root frame binding x to w,
and an empty child frame (frame 1) of the root. -/
def twoFrameStore (w : Value) : Store :=
  { frames :=
      [(0, { filename := "main", trace := "", entries := [("x", w)], parent := none }),
       (1, { filename := "main", trace := "child", entries := [], parent := some 0 })],
    slots := [], lists := [], dicts := [],
    nextFrame := 2, nextSlot := 0, nextList := 0, nextDict := 0 }

/-- The two-frame store with x bound nowhere. -/
def twoFrameStoreNoX : Store :=
  { frames :=
      [(0, { filename := "main", trace := "", entries := [], parent := none }),
       (1, { filename := "main", trace := "child", entries := [], parent := some 0 })],
    slots := [], lists := [], dicts := [],
    nextFrame := 2, nextSlot := 0, nextList := 0, nextDict := 0 }

/-- The closure-over-counter program of the spec:
let mk = func() { let n = 0; return func() { n = n + 1; return n; }; };
let c = mk(); [c(), c(), c()]; -/
def closureCounterProgram : List Stmt :=
  [letStmt "mk" (orOfP (.funcLiteral (.mk "mk" []
     [letStmt "n" (orOfP (.number 0)),
      .returnS (some (exprOfP (.funcLiteral (.mk "inner" []
        [assignStmt "n" (orOf (andOf (eqOf (compOf (.mk (multOf (unaryOf (.identP "n"))) (some "+")
           (some (addOf (multOf (unaryOf (.number 1)))))))))),
         .returnS (some (exprOfP (.identP "n")))]))))]))),
   letStmt "c" (orOfP (callOf "mk" [])),
   stmtOfP (.listLiteral
     [exprOfP (callOf "c" []), exprOfP (callOf "c" []), exprOfP (callOf "c" [])])]

/-- The program let f = func() { break; }; while (true) { f(); }; — a
break executed inside a called function, with a loop around the call
site. -/
def breakThroughCallProgram : List Stmt :=
  [letStmt "f" (orOfP (.funcLiteral (.mk "f" [] [.breakS]))),
   .whileS (.mk (some (exprOfP .trueLit)) [stmtOfP (callOf "f" [])])]

/-- The program log == log; — an equality whose two operands are the same
native function. -/
def nativeEqProgram : List Stmt :=
  [.exprS (eqExpr "==" (.identP "log") (.identP "log"))]

/-- The program let l = [7]; l[-0.5]; — a list indexed by a negative
non-integral number inside (-1, 0). -/
def listTruncProgram : List Stmt :=
  [letStmt "l" (orOfP (.listLiteral [exprOfP (.number 7)])),
   stmtOfP (indexOf "l" (exprOfU (.un "-" (.primary (.number ⟨1, 2⟩)))))]

/-- The program 1 % 0;. -/
def modZeroProgram : List Stmt :=
  [.exprS (modExpr (.number 1) (.number 0))]

/-- The program let d = ; d[k] = 42; d[k]; with an empty dict literal and
key literal "k". -/
def dictWriteReadProgram : List Stmt :=
  [letStmt "d" (orOfP (.dictLiteral [])),
   .exprS (.mk (.mk false (orOfP (indexOf "d" (exprOfP (strLit "k"))))
     (some "=") (some (orOfP (.number 42))))),
   stmtOfP (indexOf "d" (exprOfP (strLit "k")))]

/-- The program let s = "ab"; s[1] = "X"; s;. -/
def stringWriteProgram : List Stmt :=
  [letStmt "s" (orOfP (strLit "ab")),
   .exprS (.mk (.mk false (orOfP (indexOf "s" (exprOfP (.number 1))))
     (some "=") (some (orOfP (strLit "X"))))),
   stmtOfP (.identP "s")]

/-- The program let x = 1; if (true) { let x = 2; } x; — a let for an
already-bound name inside a nested scope. -/
def letShadowProgram : List Stmt :=
  [letStmt "x" (orOfP (.number 1)),
   .ifS (.mk (exprOfP .trueLit) [letStmt "x" (orOfP (.number 2))] []),
   stmtOfP (.identP "x")]

/-- The program let x = 1; let g = func(x) { return 0; }; g(9); x; — a
parameter whose name is already bound in the scope the function closes
over. -/
def paramOverwriteProgram : List Stmt :=
  [letStmt "x" (orOfP (.number 1)),
   letStmt "g" (orOfP (.funcLiteral
     (.mk "g" ["x"] [.returnS (some (exprOfP (.number 0)))]))),
   stmtOfP (callOf "g" [exprOfP (.number 9)]),
   stmtOfP (.identP "x")]

/-- AST shorthand: the expression a < b on two Primaries. -/
def ltExpr (a b : Primary) : Expr :=
  .mk (.mk false (orOf (andOf (eqOf (.mk (addOf (multOf (unaryOf a)))
    (some "<") (some (compOf (addOf (multOf (unaryOf b))))))))) none none)

/-- AST shorthand: the expression let name = rhs. -/
def letExpr (name : String) (rhs : LogicOr) : Expr :=
  .mk (.mk true (orOfP (.identP name)) (some "=") (some rhs))

/-- AST shorthand: the expression name = rhs. -/
def assignExpr (name : String) (rhs : LogicOr) : Expr :=
  .mk (.mk false (orOfP (.identP name)) (some "=") (some rhs))

/-- AST shorthand: the LogicOr holding a + b. -/
def plusOr (a b : Primary) : LogicOr :=
  orOf (andOf (eqOf (compOf (.mk (multOf (unaryOf a)) (some "+")
    (some (addOf (multOf (unaryOf b))))))))

/-- The immediately-invoked function expression of the spec:
let r = (func(x) { return x + 1; })(4); r;. -/
def iifeProgram : List Stmt :=
  [letStmt "r" (orOfP (.subExpression
     (exprOfP (.funcLiteral (.mk "f" ["x"]
       [.returnS (some (addExpr (.identP "x") (.number 1)))])))
     (some (.mk (.args [exprOfP (.number 4)]) none)))),
   stmtOfP (.identP "r")]

/-- The loop scenario of the spec: let s = 0;
for (let i = 0; i < 10; i = i + 1) { if (i == 5) { break; }
if (i == 2) { continue; } s = s + i; } s;. -/
def loopProgram : List Stmt :=
  [letStmt "s" (orOfP (.number 0)),
   .forS (.mk (some (letExpr "i" (orOfP (.number 0))))
     (some (ltExpr (.identP "i") (.number 10)))
     (some (assignExpr "i" (plusOr (.identP "i") (.number 1))))
     [.ifS (.mk (eqExpr "==" (.identP "i") (.number 5)) [.breakS] []),
      .ifS (.mk (eqExpr "==" (.identP "i") (.number 2)) [.continueS] []),
      .exprS (assignExpr "s" (plusOr (.identP "s") (.identP "i")))]),
   stmtOfP (.identP "s")]

/-- A minimal store holding one list backing map at address 0. -/
def listStore (elems : List SlotId) : Store :=
  { frames := [], slots := [], lists := [(0, elems)], dicts := [],
    nextFrame := 0, nextSlot := 0, nextList := 1, nextDict := 0 }

/-- A minimal store holding one value slot at address 0. -/
def slotStore (v : Value) : Store :=
  { frames := [], slots := [(0, v)], lists := [], dicts := [],
    nextFrame := 0, nextSlot := 1, nextList := 0, nextDict := 0 }

/-- A minimal store holding one dict backing map at address 0. -/
def dictStore (entries : List (String × SlotId)) : Store :=
  { frames := [], slots := [], lists := [], dicts := [(0, entries)],
    nextFrame := 0, nextSlot := 0, nextList := 0, nextDict := 1 }

theorem lookupN_updateN_self {β : Type} (l : List (Nat × β)) (k : Nat) (v : β) :
    lookupN (updateN l k v) k = some v := by
  induction l with
  | nil => simp [updateN, lookupN]
  | cons h t ih =>
    obtain ⟨a, b⟩ := h
    by_cases hk : k = a
    · simp [updateN, lookupN, hk]
    · simp [updateN, lookupN, hk, ih]

theorem lookupA_updateA_self {β : Type} (l : List (String × β)) (k : String)
    (v : β) : lookupA (updateA l k v) k = some v := by
  induction l with
  | nil => simp [updateA, lookupA]
  | cons h t ih =>
    obtain ⟨a, b⟩ := h
    by_cases hk : k = a
    · simp [updateA, lookupA, hk]
    · simp [updateA, lookupA, hk, ih]

/-- Truncating division exceeds floored division by one on a negative
non-divisible numerator over a positive denominator. -/
theorem tdiv_eq_floor_add_one {n d : ℤ} (hd : 0 < d) (hn : n < 0)
    (hnd : ¬ d ∣ n) : Int.tdiv n d = ⌊(n : ℚ) / (d : ℚ)⌋ + 1 := by
  have h0 : Int.tdiv n d = -((-n) / d) := by
    calc Int.tdiv n d = Int.tdiv (-(-n)) d := by rw [neg_neg]
    _ = -Int.tdiv (-n) d := Int.neg_tdiv (-n) d
    _ = -((-n) / d) := by rw [Int.tdiv_eq_ediv (by omega) (by omega)]
  set m := (-n) / d with hm
  have hmod : d * m + (-n) % d = -n := by
    rw [hm]
    exact Int.ediv_add_emod (-n) d
  have hmodnn := Int.emod_nonneg (-n) (by omega : d ≠ 0)
  have hmodlt := Int.emod_lt_of_pos (-n) hd
  have hmodpos : 0 < (-n) % d := by
    rcases lt_or_eq_of_le hmodnn with h | h
    · exact h
    · exfalso
      apply hnd
      have : d ∣ (-n) := Int.dvd_of_emod_eq_zero h.symm
      exact (Int.dvd_neg).mp this
  have hb1 : d * m < -n := by omega
  have hb2 : -n < d * m + d := by omega
  have hfl : ⌊(n : ℚ) / (d : ℚ)⌋ = -m - 1 := by
    rw [Int.floor_eq_iff]
    constructor
    · rw [le_div_iff₀ (by exact_mod_cast hd : (0:ℚ) < (d:ℚ))]
      have hint : (-m - 1) * d ≤ n := by
        have hr : (-m - 1) * d = -(d * m) - d := by ring
        omega
      exact_mod_cast hint
    · rw [div_lt_iff₀ (by exact_mod_cast hd : (0:ℚ) < (d:ℚ))]
      have hint : n < (-m - 1 + 1) * d := by
        have hr : (-m - 1 + 1) * d = -(d * m) := by ring
        omega
      exact_mod_cast hint
  rw [h0, hfl]
  ring

/-- C1 counterexample: with x bound to 1 in the root frame and an empty
child frame, evaluating let x = 2 in the child creates no binding in the
child and overwrites the root binding — the opposite of what the claim
states for both halves of the shadowing property. -/
theorem c1_let_overwrites_ancestor_cex :
    (run 30 (.stmtJ 1 (letStmt "x" (orOfP (.number 2))))
        (twoFrameStore (.number 1))).frameEntries 1 = some [] ∧
    (run 30 (.stmtJ 1 (letStmt "x" (orOfP (.number 2))))
        (twoFrameStore (.number 1))).frameEntries 0 =
      some [("x", .number 2)] :=
  ⟨rfl, rfl⟩

/-- C1 amended: StackFrame.Set walks the frame chain bottom to top, so a
let assignment (and likewise parameter binding, which also goes through
Set) overwrites the nearest existing binding of the name — in an ancestor
frame when the name is bound there — and creates a binding in the current
frame only when the name is bound nowhere in the chain.  The last two
conjuncts run whole programs: a nested let leaves the outer x at 2, and
calling g(9) overwrites the enclosing x with the argument. -/
theorem c1_let_and_param_binding_walk_up :
    (∀ (w : Value) (q : GoNum),
      (run 30 (.stmtJ 1 (letStmt "x" (orOfP (.number q))))
          (twoFrameStore w)).frameEntries 0 = some [("x", .number q)] ∧
      (run 30 (.stmtJ 1 (letStmt "x" (orOfP (.number q))))
          (twoFrameStore w)).frameEntries 1 = some []) ∧
    (∀ q : GoNum,
      (run 30 (.stmtJ 1 (letStmt "x" (orOfP (.number q))))
          twoFrameStoreNoX).frameEntries 1 = some [("x", .number q)] ∧
      (run 30 (.stmtJ 1 (letStmt "x" (orOfP (.number q))))
          twoFrameStoreNoX).frameEntries 0 = some []) ∧
    (∀ (w v : Value),
      (run 30 (.execJ "p" ["x"] 1 [] [v])
          (twoFrameStore w)).frameEntries 0 = some [("x", v)] ∧
      (run 30 (.execJ "p" ["x"] 1 [] [v])
          (twoFrameStore w)).frameEntries 2 = some []) ∧
    (RunProgram 200 letShadowProgram).value = some (.number 2) ∧
    (RunProgram 200 paramOverwriteProgram).value = some (.number 9) :=
  ⟨fun w q => ⟨rfl, rfl⟩, fun q => ⟨rfl, rfl⟩, fun w v => ⟨rfl, rfl⟩,
   rfl, rfl⟩

/-- C2: a func literal builds its closure over the frame in effect at the
evaluation site (the stored frame is a fresh empty child of that frame,
an observationally transparent wrapper of it); a call evaluates the body
in a fresh child of that stored frame — Exec receives no caller frame at
all, as the job carries none — and the closure-over-counter program
observes the same captured variable across three calls. -/
theorem c2_closure_captures_definition_frame :
    (∀ (fuel : Nat) (st : Store) (fid : FrameId) (pos : String)
        (params : List String) (blk : List Stmt),
      run (fuel + 1) (.primaryJ fid (.funcLiteral (.mk pos params blk))) st =
        .val (.function pos params st.nextFrame blk)
          (StackFrame.GetChild st fid "function declared").snd ∧
      ((StackFrame.GetChild st fid "function declared").snd.getFrame
          st.nextFrame).map Frame.parent = some (some fid)) ∧
    (∀ (fuel : Nat) (st : Store) (pos : String) (cfid : FrameId)
        (body : List Stmt),
      run (fuel + 1) (.execJ pos [] cfid body []) st =
        execCatch (StackFrame.GetChild st cfid "function call").fst
          (run fuel
            (.execBodyJ (StackFrame.GetChild st cfid "function call").fst body)
            (StackFrame.GetChild st cfid "function call").snd) ∧
      ((StackFrame.GetChild st cfid "function call").snd.getFrame
          (StackFrame.GetChild st cfid "function call").fst).map Frame.parent =
        some (some cfid)) ∧
    outcomeListElems (RunProgram 300 closureCounterProgram) =
      some [.number 1, .number 2, .number 3] := by
  refine ⟨fun fuel st fid pos params blk => ⟨rfl, ?_⟩,
          fun fuel st pos cfid body => ⟨rfl, ?_⟩, rfl⟩
  · simp only [StackFrame.GetChild, Store.allocFrame, Store.getFrame]
    rw [lookupN_updateN_self]
    rfl
  · simp only [StackFrame.GetChild, Store.allocFrame, Store.getFrame]
    rw [lookupN_updateN_self]
    rfl

/-- C3 counterexample: in let f = func() { break; }; while (true) { f(); };
the BreakError raised inside the called function is caught by the while
loop enclosing the call site, so the program terminates normally with
Undefined instead of aborting with an error. -/
theorem c3_break_in_function_breaks_enclosing_loop_cex :
    (RunProgram 200 breakThroughCallProgram).value = some .undefined := rfl

/-- C3 amended: a function call catches only Return (yielding its value)
and propagates Break and Continue outward as errors — but a loop
enclosing the call site catches the propagated BreakError or
ContinueError as its own loop control, so a break inside a called
function terminates the nearest loop around the call; only without such a
loop does it abort execution. -/
theorem c3_exec_catches_only_return :
    (∀ (fuel : Nat) (st : Store) (pos : String) (cfid : FrameId),
      run (fuel + 3) (.execJ pos [] cfid [Stmt.breakS] []) st =
        .sig .breakSig (StackFrame.GetChild st cfid "function call").snd) ∧
    (∀ (fuel : Nat) (st : Store) (pos : String) (cfid : FrameId),
      run (fuel + 3) (.execJ pos [] cfid [Stmt.continueS] []) st =
        .sig .continueSig (StackFrame.GetChild st cfid "function call").snd) ∧
    (∀ (fuel : Nat) (st : Store) (pos : String) (cfid : FrameId),
      run (fuel + 3) (.execJ pos [] cfid [Stmt.returnS none] []) st =
        .val .undefined (StackFrame.GetChild st cfid "function call").snd) ∧
    (∀ (fuel : Nat) (st : Store) (lf : FrameId) (post : Option Expr),
      run (fuel + 3) (.loopJ lf none [Stmt.breakS] post) st =
        .val .undefined st) ∧
    (RunProgram 200 breakThroughCallProgram).value = some .undefined :=
  ⟨fun fuel st pos cfid => rfl, fun fuel st pos cfid => rfl,
   fun fuel st pos cfid => rfl, fun fuel st lf post => rfl, rfl⟩

/-- C4 counterexample: log == log evaluates to true, because the two
operands are the same native function and NativeFunctionValue.Equals
compares native functions by name — refuting the claim that every
function operand makes == false. -/
theorem c4_native_functions_compare_true_cex :
    (RunProgram 100 nativeEqProgram).value = some (.boolV true) := rfl

/-- C4 amended: == evaluates to false whenever the left operand (after
unref and identifier resolution) is a user-defined function, list, dict
or reference, and whenever the right operand is a user-defined function,
list or dict; but a native function compares equal to a native function
of the same name, and a reference on the right is dereferenced by the
scalar Equals of the left operand.  != is built from the same Equals bit,
negated: the last conjunct shows that for the same operand expressions an
Equality evaluation with != signals identically to one with == or yields
exactly the negated boolean with the same store. -/
theorem c4_equality_characterisation :
    (∀ (st : Store) (r : Value) (pos : String) (ps : List String)
        (cf : FrameId) (body : List Stmt),
      Value.Equals st (.function pos ps cf body) r = .ok false) ∧
    (∀ (st : Store) (r : Value) (lid : ListId),
      Value.Equals st (.listV lid) r = .ok false) ∧
    (∀ (st : Store) (r : Value) (did : DictId),
      Value.Equals st (.dictV did) r = .ok false) ∧
    (∀ (st : Store) (r : Value) (sid : SlotId),
      Value.Equals st (.reference sid) r = .ok false) ∧
    (∀ (st : Store) (l : Value) (lid : ListId) (did : DictId) (pos : String)
        (ps : List String) (cf : FrameId) (body : List Stmt),
      l.isIdentifier = false →
      Value.Equals st l (.listV lid) = .ok false ∧
      Value.Equals st l (.dictV did) = .ok false ∧
      Value.Equals st l (.function pos ps cf body) = .ok false) ∧
    (∀ (st : Store) (a b ea eb : String),
      Value.Equals st (.nativeFunction a ea) (.nativeFunction b eb) =
        .ok (decide (a = b))) ∧
    (∀ (st : Store) (q m : GoNum) (sid : SlotId),
      st.getSlot sid = some (.number m) →
      Value.Equals st (.number q) (.reference sid) = .ok (GoNum.beq q m)) ∧
    (∀ (st : Store) (b : Bool),
      applyEqualityOp "==" b st = .val (.boolV b) st ∧
      applyEqualityOp "!=" b st = .val (.boolV !b) st) ∧
    (∀ (fuel : Nat) (fid : FrameId) (st : Store) (c : Comparison)
        (rhs : Equality),
      (∃ sg st1,
        run (fuel + 1) (.equalityJ fid (.mk c (some "==") (some rhs))) st =
          .sig sg st1 ∧
        run (fuel + 1) (.equalityJ fid (.mk c (some "!=") (some rhs))) st =
          .sig sg st1) ∨
      (∃ b st1,
        run (fuel + 1) (.equalityJ fid (.mk c (some "==") (some rhs))) st =
          .val (.boolV b) st1 ∧
        run (fuel + 1) (.equalityJ fid (.mk c (some "!=") (some rhs))) st =
          .val (.boolV !b) st1)) := by
  refine ⟨fun st r pos ps cf body => rfl, fun st r lid => rfl,
          fun st r did => rfl, fun st r sid => rfl,
          fun st l lid did pos ps cf body h => ?_,
          fun st a b ea eb => rfl, fun st q m sid h => ?_,
          fun st b => ⟨rfl, rfl⟩, fun fuel fid st c rhs => ?_⟩
  · cases l <;> simp [Value.isIdentifier] at h ⊢ <;>
      exact ⟨rfl, rfl, rfl⟩
  · simp [Value.Equals, unref, h]
  · simp only [run]
    rcases h1 : run fuel (.comparisonJ fid c) st with ⟨v, st1⟩ | ⟨vs, st1⟩ |
      ⟨sg, st1⟩
    · simp only
      rcases h2 : run fuel (.equalityJ fid rhs) st1 with ⟨w, st2⟩ | ⟨ws, st2⟩ |
        ⟨sg2, st2⟩
      · simp only [equalityTail]
        rcases h3 : resolveIdent st2 fid (unref st2 v) with m | l
        · exact Or.inl ⟨.err m, st2, by simp [h3], by simp [h3]⟩
        · rcases h4 : resolveIdent st2 fid (unref st2 w) with m | r
          · exact Or.inl ⟨.err m, st2, by simp [h3, h4], by simp [h3, h4]⟩
          · rcases h5 : Value.Equals st2 l r with m | result
            · exact Or.inl ⟨.err m, st2, by simp [h3, h4, h5],
                by simp [h3, h4, h5]⟩
            · exact Or.inr ⟨result, st2,
                by simp [h3, h4, h5, applyEqualityOp],
                by simp [h3, h4, h5, applyEqualityOp]⟩
      · exact Or.inl ⟨.panicked "unreachable", st2, rfl, rfl⟩
      · exact Or.inl ⟨sg2, st2, rfl, rfl⟩
    · exact Or.inl ⟨.panicked "unreachable", st1, rfl, rfl⟩
    · exact Or.inl ⟨sg, st1, rfl, rfl⟩

/-- C4 witness: a number on the left compares equal through a reference
on the right that points at an equal number. -/
theorem c4_witness :
    Value.Equals (slotStore (.number 5)) (.number 5) (.reference 0) =
      .ok true :=
  c4_equality_characterisation.2.2.2.2.2.2.1 (slotStore (.number 5)) 5 5 0 rfl

/-- C5 counterexample: let l = [7]; l[-0.5]; succeeds and yields the first
element, because the Go conversion int() truncates -0.5 to 0, while the
claimed flooring to -1 would have been out of bounds and raised an
IndexError. -/
theorem c5_list_index_truncates_cex :
    (RunProgram 100 listTruncProgram).value = some (.number 7) ∧
    GoNum.trunc ⟨-1, 2⟩ = 0 ∧ GoNum.floorZ ⟨-1, 2⟩ = -1 :=
  ⟨rfl, by decide, by decide⟩

/-- C5 amended: a list index is truncated toward zero (not floored), then
bounds-checked against 0..len-1 — raising the list index out of bounds
error when the truncation is out of range — and on success yields a
Reference to the slot at the truncated index. -/
theorem c5_list_index_truncation_semantics :
    ∀ (st : Store) (lid : ListId) (n : GoNum) (elems : List SlotId),
      st.getList lid = some elems →
      (∀ (h0 : 0 ≤ GoNum.trunc n) (h1 : GoNum.trunc n < (elems.length : ℤ)),
        ∃ sid, elems.get? (GoNum.trunc n).toNat = some sid ∧
          listIndexNum st lid n = .ok (.reference sid)) ∧
      (GoNum.trunc n < 0 ∨ (elems.length : ℤ) ≤ GoNum.trunc n →
        listIndexNum st lid n =
          .error ("list index out of bounds: " ++ toString (GoNum.trunc n))) := by
  intro st lid n elems h
  constructor
  · intro h0 h1
    have hlt : (GoNum.trunc n).toNat < elems.length := by omega
    refine ⟨elems.get ⟨(GoNum.trunc n).toNat, hlt⟩, List.get?_eq_get hlt, ?_⟩
    simp only [listIndexNum, ListValue.Get, h]
    rw [if_neg (by omega), List.get?_eq_get hlt]
  · intro hcase
    simp only [listIndexNum, ListValue.Get, h]
    rw [if_pos (by omega)]

/-- C5 witness: indexing the two-element list at 1.5 truncates to index 1
and yields a reference to the second slot. -/
theorem c5_witness :
    listIndexNum (listStore [5, 9]) 0 ⟨3, 2⟩ = .ok (.reference 9) := by
  have h := (c5_list_index_truncation_semantics (listStore [5, 9]) 0 ⟨3, 2⟩
    [5, 9] rfl).1 (by decide) (by decide)
  obtain ⟨sid, hsid, hrun⟩ := h
  have hs : sid = 9 := by
    have : some (9 : SlotId) = some sid := by
      rw [← hsid]
      rfl
    exact (Option.some_injective _ this).symm
  rw [hs] at hrun
  exact hrun

/-- C6 counterexample: 1 % 0; does not return a Number — the divisor
rounds to zero and the Go integer remainder panics, aborting the
interpreter. -/
theorem c6_mod_zero_panics_cex :
    (RunProgram 100 modZeroProgram).signal =
      some (.panicked "runtime error: integer divide by zero") := rfl

/-- C6 amended: % on two Numbers rounds both operands to the nearest
integer (half away from zero) and returns the Go truncated integer
remainder of the rounded values as a Number, provided the right operand
does not round to zero — in that case the interpreter panics with an
integer division by zero; any non-Number operand is a type error. -/
theorem c6_mod_rounds_then_truncated_remainder :
    (∀ (fuel : Nat) (fid : FrameId) (st : Store) (a b : GoNum),
      run (fuel + 4) (.multiplicationJ fid
          (.mk (unaryOf (.number a)) (some "%")
            (some (multOf (unaryOf (.number b)))))) st =
        multiplicationOp "%" (.number a) (.number b) st) ∧
    (∀ (st : Store) (a b : GoNum), GoNum.round b ≠ 0 →
      multiplicationOp "%" (.number a) (.number b) st =
        .val (.number ⟨Int.tmod (GoNum.round a) (GoNum.round b), 1⟩) st) ∧
    (∀ (st : Store) (a b : GoNum), GoNum.round b = 0 →
      multiplicationOp "%" (.number a) (.number b) st =
        .sig (.panicked "runtime error: integer divide by zero") st) ∧
    (∀ (st : Store) (l r : Value),
      l.isNumber = false ∨ r.isNumber = false →
      ∃ m, multiplicationOp "%" l r st = .sig (.err m) st) := by
  refine ⟨fun fuel fid st a b => rfl, fun st a b h => ?_, fun st a b h => ?_,
          fun st l r h => ?_⟩
  · simp [multiplicationOp, h]
  · simp [multiplicationOp, h]
  · cases l <;> cases r <;>
      first
      | exact ⟨_, rfl⟩
      | simp [Value.isNumber] at h

/-- C6 witness: 7 % 2.6 rounds the divisor to 3 and yields remainder 1. -/
theorem c6_witness :
    GoNum.round ⟨13, 5⟩ ≠ 0 ∧
    multiplicationOp "%" (.number 7) (.number ⟨13, 5⟩) (initStore "main") =
      .val (.number 1) (initStore "main") :=
  ⟨by decide,
   c6_mod_rounds_then_truncated_remainder.2.1 (initStore "main") 7 ⟨13, 5⟩
     (by decide)⟩

/-- C7: indexing a dict with any string key yields a reference to the
bound slot, auto-vivifying a fresh Undefined slot on a miss; writing any
value through that reference (the Assignment write is Store.setSlot) and
indexing again reads back exactly the written value.  The second conjunct
runs the whole program let d = ; d[k] = 42; d[k]; end to end. -/
theorem c7_dict_write_then_read :
    (∀ (st : Store) (did : DictId) (k : String)
        (entries : List (String × SlotId)),
      st.getDict did = some entries →
      ∃ sid,
        (dictIndexSlot st did k).fst = .reference sid ∧
        ∀ v : Value,
          (dictIndexSlot ((dictIndexSlot st did k).snd.setSlot sid v)
              did k).fst = .reference sid ∧
          unref ((dictIndexSlot st did k).snd.setSlot sid v)
              (.reference sid) = v) ∧
    (RunProgram 100 dictWriteReadProgram).value = some (.number 42) := by
  refine ⟨fun st did k entries h => ?_, rfl⟩
  have hd : lookupN st.dicts did = some entries := h
  cases hlk : lookupA entries k with
  | some sid =>
    refine ⟨sid, ?_, fun v => ⟨?_, ?_⟩⟩
    · simp [dictIndexSlot, DictValue.Get, Store.getDict, hd, hlk]
    · simp [dictIndexSlot, DictValue.Get, Store.setSlot, Store.getDict,
        hd, hlk]
    · simp [dictIndexSlot, DictValue.Get, Store.getDict, hd, hlk, unref,
        Store.setSlot, Store.getSlot, lookupN_updateN_self]
  | none =>
    refine ⟨st.nextSlot, ?_, fun v => ⟨?_, ?_⟩⟩
    · simp [dictIndexSlot, DictValue.Get, Store.getDict, hd, hlk,
        DictValue.Set, Store.allocSlot, Store.setDict]
    · simp [dictIndexSlot, DictValue.Get, Store.getDict, hd, hlk,
        DictValue.Set, Store.allocSlot, Store.setDict, Store.setSlot,
        lookupN_updateN_self, lookupA_updateA_self]
    · simp [dictIndexSlot, DictValue.Get, Store.getDict, hd, hlk,
        DictValue.Set, Store.allocSlot, Store.setDict, Store.setSlot,
        Store.getSlot, unref, lookupN_updateN_self]

/-- C7 witness: on the empty dict, key "k" auto-vivifies slot 0 and the
value true written through the reference reads back. -/
theorem c7_witness :
    unref ((dictIndexSlot (dictStore []) 0 "k").snd.setSlot 0 (.boolV true))
        (.reference 0) = .boolV true := by
  obtain ⟨sid, h1, h2⟩ :=
    c7_dict_write_then_read.1 (dictStore []) 0 "k" [] rfl
  have hs : sid = 0 := by
    have : Value.reference 0 = .reference sid := by
      rw [← h1]
      rfl
    cases this
    rfl
  rw [hs] at h2
  exact (h2 (.boolV true)).2

/-- C8: an in-range string index materialises a fresh single-byte string
in a fresh slot (the next slot address) behind a Reference; writing a
slot never touches any frame, so the frame binding holding the source
string is unchanged; and the whole program let s = "ab"; s[1] = "X"; s;
ends with the original string byte for byte. -/
theorem c8_string_index_is_value_like :
    (∀ (st : Store) (bytes : List Char) (i : ℤ) (c : Char),
      bytes.get? i.toNat = some c → 0 ≤ i → i < (bytes.length : ℤ) →
      StringValue.Get st bytes i =
        .ok (.reference st.nextSlot, (st.allocSlot (.stringV [c])).snd)) ∧
    (∀ (st : Store) (sid : SlotId) (v : Value) (fid : FrameId),
      (st.setSlot sid v).getFrame fid = st.getFrame fid) ∧
    (RunProgram 100 stringWriteProgram).value = some (.stringV "ab".data) := by
  refine ⟨fun st bytes i c hc h0 h1 => ?_, fun st sid v fid => rfl, rfl⟩
  simp only [StringValue.Get]
  rw [if_neg (by omega), hc]
  rfl

/-- C8 witness: indexing "ab" at 1 yields a reference to a fresh slot
holding the single byte "b". -/
theorem c8_witness :
    StringValue.Get (initStore "main") "ab".data 1 =
      .ok (.reference 0, ((initStore "main").allocSlot (.stringV [Char.ofNat 98])).snd) :=
  c8_string_index_is_value_like.1 (initStore "main") "ab".data 1
    (Char.ofNat 98) rfl (by decide) (by decide)

/-- C9: a string argument that does not parse as a float makes num return
the Number 0 with no error: the parse failure branch falls through
(discarding the error it builds) to return the zero value ParseFloat left
behind. -/
theorem c9_num_parse_failure_returns_zero
    (parse : List Char → Option GoNum) (st : Store) (bytes : List Char)
    (h : parse bytes = none) :
    doNum parse st [.stringV bytes] = .ok (.number 0, st) := by
  simp only [doNum, h]
  rfl

/-- C9 witness: num("abc") under the concrete decimal parser. -/
theorem c9_witness :
    doNum parseDecimal (initStore "main") [.stringV "abc".data] =
      .ok (.number 0, initStore "main") :=
  c9_num_parse_failure_returns_zero parseDecimal (initStore "main")
    "abc".data rfl

/-- C10: floor truncates toward zero (the Go conversion float64(int(n))),
floor(-1.5) is -1, and on a negative non-integral argument the result is
one greater than the mathematical floor of the denoted rational. -/
theorem c10_floor_truncates_toward_zero :
    (∀ (st : Store) (q : GoNum),
      doFloor st [.number q] = .ok (.number ⟨GoNum.trunc q, 1⟩, st)) ∧
    GoNum.trunc ⟨-3, 2⟩ = -1 ∧
    (∀ q : GoNum, 0 < q.den → q.num < 0 → ¬ q.den ∣ q.num →
      GoNum.trunc q = ⌊q.toRat⌋ + 1) := by
  refine ⟨fun st q => rfl, by decide, fun q hden hnum hnd => ?_⟩
  exact tdiv_eq_floor_add_one hden hnum hnd

/-- C10 witness: floor(-1.5) truncates to -1, one above the mathematical
floor -2. -/
theorem c10_witness :
    doFloor (initStore "main") [.number ⟨-3, 2⟩] =
      .ok (.number ⟨-1, 1⟩, initStore "main") ∧
    GoNum.trunc ⟨-3, 2⟩ = ⌊GoNum.toRat ⟨-3, 2⟩⌋ + 1 :=
  ⟨c10_floor_truncates_toward_zero.1 (initStore "main") ⟨-3, 2⟩,
   c10_floor_truncates_toward_zero.2.2 ⟨-3, 2⟩ (by decide) (by decide)
     (by decide)⟩

/-- Validation: the spec scenario let r = (func(x) { return x + 1; })(4);
evaluates to 5 through the full interpreter. -/
theorem spec_scenario_iife :
    (RunProgram 100 iifeProgram).value = some (.number 5) := rfl

set_option maxRecDepth 40000 in
/-- Validation: the spec loop scenario with break at 5 and continue at 2
accumulates 0 + 1 + 3 + 4 = 8. -/
theorem spec_scenario_loop_break_continue :
    (RunProgram 900 loopProgram).value = some (.number 8) := rfl

/-- Validation: adding a string and a number is a type error. -/
theorem boundary_string_plus_number_type_error :
    (RunProgram 100 [.exprS (addExpr (strLit "x") (.number 1))]).signal =
      some (.err "+ can only be used between [string, string], [number, number], not: [x, 1]") := rfl

/-- Validation: plain assignment to an undeclared name is a name error. -/
theorem boundary_assign_undeclared_name_error :
    (RunProgram 100 [.exprS (assignExpr "zz" (orOfP (.number 1)))]).signal =
      some (.err "cant assign to unknown variable: zz") := rfl

/-- Validation: pop on an empty list is an index error. -/
theorem boundary_pop_empty_list_error :
    (RunProgram 100
        [stmtOfP (callOf "pop" [exprOfP (.listLiteral [])])]).signal =
      some (.err "pop: called on an empty list") := rfl

end Adventlang
